import Mathlib

/-!
Verification of the TTD-DR deep-research report pipeline.

This file gives a shallow embedding, in Lean 4, of the pure computational
content of the pipeline's Python sources (`chunker.py`, `quality_validator.py`,
`report_structure.py`, `report_assembler.py`, `context_manager.py`,
`gemini_client.py`, `generator.py`, `pipeline.py`).  External I/O (the LLM
service and the grounded-search service) is modelled by oracle functions
supplied through an environment record; exceptions are modelled with
`Except String`; Python floats are modelled with exact rationals `ℚ`; Python
strings are modelled with Lean `String` over their ASCII fragment.
-/

/-! ## Python string primitives

These reproduce the Python `str` operations and the `re` idioms the sources
rely on, over ASCII text (all text the system manipulates is ASCII at the
points the claims touch).
-/

/-- Python's `\s` / `str.strip()` whitespace class (ASCII). -/
def pyIsSpace (c : Char) : Bool :=
  c = ' ' || c = '\t' || c = '\n' || c = '\r' || c = '\x0b' || c = '\x0c'

/-- ASCII digit test, matching `\d` and `str.isdigit` on ASCII text. -/
def pyIsDigit (c : Char) : Bool := '0' ≤ c && c ≤ '9'

/-- ASCII uppercase test, matching the regex class `[A-Z]`. -/
def pyIsUpper (c : Char) : Bool := 'A' ≤ c && c ≤ 'Z'

/-- ASCII lowercase test, matching the regex class `[a-z]`. -/
def pyIsLower (c : Char) : Bool := 'a' ≤ c && c ≤ 'z'

/-- The regex word class `\w` on ASCII text. -/
def pyIsWord (c : Char) : Bool := pyIsDigit c || pyIsUpper c || pyIsLower c || c = '_'

/-- Strip Python whitespace from both ends of a character list. -/
def pyStripList (l : List Char) : List Char :=
  ((l.dropWhile pyIsSpace).reverse.dropWhile pyIsSpace).reverse

/-- Python `str.strip()` with no argument. -/
def pyStrip (s : String) : String := String.mk (pyStripList s.toList)

/-- Helper for `pySplitWs`: accumulates the current word (reversed). -/
def pySplitWsAux : List Char → List Char → List String
  | [], cur => if cur = [] then [] else [String.mk cur.reverse]
  | c :: rest, cur =>
    if pyIsSpace c then
      (if cur = [] then [] else [String.mk cur.reverse]) ++ pySplitWsAux rest []
    else pySplitWsAux rest (c :: cur)

/-- Python `str.split()` with no argument: split on whitespace runs, dropping
empty pieces. -/
def pySplitWs (s : String) : List String := pySplitWsAux s.toList []

/-- Structural split-at-separator scanner over characters; pieces are
accumulated reversed in `cur`.  On a separator match the remaining
`sep.length - 1` matched characters are consumed through the `skip`
counter.  Matches are non-overlapping, scanned left to right, as Python
`str.split(sep)`. -/
def pySplitAux (sep : List Char) : List Char → Nat → List Char → List (List Char)
  | [], _skip, cur => [cur.reverse]
  | _c :: rest, skip + 1, cur => pySplitAux sep rest skip cur
  | c :: rest, 0, cur =>
    if sep.isPrefixOf (c :: rest) then
      cur.reverse :: pySplitAux sep rest (sep.length - 1) []
    else pySplitAux sep rest 0 (c :: cur)

/-- Python `str.split(sep)` for a non-empty separator (a kernel-computable
replacement for `String.splitOn`, with the same semantics). -/
def pySplit (s sep : String) : List String :=
  match sep.toList with
  | [] => [s]
  | sc :: srest => (pySplitAux (sc :: srest) s.toList 0 []).map String.mk

/-- ASCII `str.lower()` on one character. -/
def pyCharLower (c : Char) : Char :=
  if 'A' ≤ c ∧ c ≤ 'Z' then Char.ofNat (c.toNat + 32) else c

/-- ASCII `str.lower()`. -/
def pyLower (s : String) : String := String.mk (s.toList.map pyCharLower)

/-- Python `str.startswith(pre)` (kernel-computable). -/
def pyStartsWith (s pre : String) : Bool := pre.toList.isPrefixOf s.toList

/-- Python's `needle in haystack` membership test for a non-empty needle:
splitting on the needle yields at least two pieces iff the needle occurs. -/
def pyContains (haystack needle : String) : Bool :=
  (pySplit haystack needle).length ≥ 2

/-- First-occurrence-preserving deduplication, as the Python
`seen`-set idiom used throughout the sources. -/
def pyDedup {α : Type} [DecidableEq α] (seen : List α) : List α → List α
  | [] => []
  | x :: rest => if x ∈ seen then pyDedup seen rest else x :: pyDedup (x :: seen) rest

/-! ## Chunker (`chunker.py`) -/

/-- Helper for `collapseSpaces`: the flag records whether the previous
character was a space. -/
def collapseSpacesAux : List Char → Bool → List Char
  | [], _ => []
  | c :: rest, prevSpace =>
    if c = ' ' then
      if prevSpace then collapseSpacesAux rest true
      else ' ' :: collapseSpacesAux rest true
    else c :: collapseSpacesAux rest false

/-- The `re.sub(r" +", " ", text)` step of `clean`: collapse runs of space
characters (spaces only) to a single space. -/
def collapseSpaces (l : List Char) : List Char := collapseSpacesAux l false

/-- The `re.sub(r"\n{3,}", "\n\n", text)` step of `clean`: a run of `pending`
pending newlines is emitted as two when the run has length at least three. -/
def squeezeNlAux : List Char → Nat → List Char
  | [], pending => if pending ≥ 3 then ['\n', '\n'] else List.replicate pending '\n'
  | c :: rest, pending =>
    if c = '\n' then squeezeNlAux rest (pending + 1)
    else (if pending ≥ 3 then ['\n', '\n'] else List.replicate pending '\n')
         ++ c :: squeezeNlAux rest 0

/-- `chunker.clean`: collapse space runs, squeeze newline runs, strip each
line, and strip the whole text. -/
def clean (text : String) : String :=
  let t1 := String.mk (collapseSpaces text.toList)
  let t2 := String.mk (squeezeNlAux t1.toList 0)
  let t3 := String.intercalate "\n" ((pySplit t2 "\n").map pyStrip)
  pyStrip t3

/-- `chunker.estimate_tokens`: `len(text) // 4`. -/
def estimate_tokens (text : String) : Nat := text.length / 4

/-- Lookbehind test of the sentence-splitting regex
`(?<!\w\.\w.)(?<![A-Z][a-z]\.)(?<=\.|\?|\!)\s+` at a candidate whitespace
position; `prev` is the reversed left context, so `prev[0]` is the character
immediately before the whitespace. -/
def sentenceBoundary (prev : List Char) : Bool :=
  match prev with
  | [] => false
  | p1 :: rest1 =>
    (p1 = '.' || p1 = '?' || p1 = '!') &&
    (match rest1 with
     | p2 :: p3 :: _ => !(pyIsUpper p3 && pyIsLower p2 && p1 = '.')
     | _ => true) &&
    (match rest1 with
     | p2 :: p3 :: p4 :: _ => !(pyIsWord p4 && p3 = '.' && pyIsWord p2)
     | _ => true)

/-- Scanner realizing `re.split` for the sentence pattern: a match is a
maximal whitespace run whose start position passes `sentenceBoundary`.
`inMatch` records being inside the matched whitespace run (whose remaining
whitespace is consumed without re-testing the boundary), `prev` is the
reversed left context, `cur` the reversed current segment. -/
def splitSentAux : List Char → Bool → List Char → List Char → List String
  | [], _, _prev, cur => [String.mk cur.reverse]
  | c :: rest, true, prev, cur =>
    if pyIsSpace c then splitSentAux rest true (c :: prev) cur
    else splitSentAux rest false (c :: prev) (c :: cur)
  | c :: rest, false, prev, cur =>
    if pyIsSpace c && sentenceBoundary prev then
      String.mk cur.reverse :: splitSentAux rest true (c :: prev) []
    else splitSentAux rest false (c :: prev) (c :: cur)

/-- `chunker.split_sentences`: split on the regex, strip each piece, and keep
the non-empty pieces. -/
def split_sentences (text : String) : List String :=
  ((splitSentAux text.toList false [] []).map pyStrip).filter (fun s => s ≠ "")

/-- Input document for `chunk_document` (the keys of the Python dict the
function reads: `text`, `token_count`, `id`, `url`). -/
structure Doc where
  text : String
  token_count : Option Nat
  id : Option String
  url : Option String
deriving DecidableEq

/-- Output chunk of `chunk_document` (the keys of the emitted dict). -/
structure Chunk where
  chunk_id : Nat
  text : String
  token_count : Nat
  char_range : Nat × Nat
  sentence_count : Nat
  doc_id : Option String
  url : Option String
deriving DecidableEq

/-- Mutable loop state of `chunk_document`'s sentence-packing loop. -/
structure ChunkState where
  chunks : List Chunk
  current_chunk : List String
  current_tokens : Nat
  char_pos : Nat
deriving DecidableEq

/-- The overlap-buffer loop (`for sent in reversed(current_chunk): ...`),
called with the reversed current chunk.  Returns the buffer (in original
order), the accumulated `overlap_tokens`, and the final value of the Python
variable `sent_tokens`, which that loop *shadows*: the returned third
component is the token estimate of the last sentence examined (the sentence
at which the loop broke, or the first sentence of the chunk when it did not
break), or `lastSt` when the list is empty. -/
def overlapScan (overlap : Nat) : List String → Nat → Nat → List String × Nat × Nat
  | [], otoks, lastSt => ([], otoks, lastSt)
  | s :: rest, otoks, _lastSt =>
    let st := estimate_tokens s
    if otoks + st ≤ overlap then
      let r := overlapScan overlap rest (otoks + st) st
      (r.1 ++ [s], r.2.1, r.2.2)
    else ([], otoks, st)

/-- One iteration of `chunk_document`'s packing loop over a sentence,
including the `sent_tokens` shadowing: after a chunk is emitted the value
added to `current_tokens` for the incoming sentence is the stale
`sent_tokens` left behind by the overlap loop, not the sentence's own
estimate. -/
def chunkStep (max_tokens overlap : Nat) (doc_id url : Option String)
    (st : ChunkState) (sentence : String) : ChunkState :=
  let sent_tokens := estimate_tokens sentence
  let p :=
    if st.current_tokens + sent_tokens > max_tokens ∧ st.current_chunk ≠ [] then
      let chunk_text := String.intercalate " " st.current_chunk
      let chunk_start := st.char_pos - chunk_text.length
      let c : Chunk := ⟨st.chunks.length, chunk_text, st.current_tokens,
        (chunk_start, st.char_pos), st.current_chunk.length, doc_id, url⟩
      let r := overlapScan overlap st.current_chunk.reverse 0 sent_tokens
      (ChunkState.mk (st.chunks ++ [c]) r.1 r.2.1 st.char_pos, r.2.2)
    else (st, sent_tokens)
  { p.1 with current_chunk := p.1.current_chunk ++ [sentence],
             current_tokens := p.1.current_tokens + p.2,
             char_pos := p.1.char_pos + sentence.length + 1 }

/-- The whole packing loop of `chunk_document` as a fold over the sentences. -/
def chunkLoop (max_tokens overlap : Nat) (doc_id url : Option String)
    (sentences : List String) : ChunkState :=
  sentences.foldl (chunkStep max_tokens overlap doc_id url) ⟨[], [], 0, 0⟩

/-- `chunker.chunk_document`.  The Python defaults are
`max_tokens = 500`, `overlap = 50`, `min_tokens = 500`, `clean_text = True`.
(The local `token_count = doc.get("token_count") or estimate` of the source is
computed and then never used, so it is omitted here.) -/
def chunk_document (doc : Doc) (max_tokens overlap min_tokens : Nat)
    (clean_text : Bool) : List Chunk :=
  let text := if clean_text then clean doc.text else doc.text
  let sentences := split_sentences text
  if sentences = [] then []
  else
    let st := chunkLoop max_tokens overlap doc.id doc.url sentences
    if st.current_chunk ≠ [] ∧ st.current_tokens ≥ min_tokens then
      let chunk_text := String.intercalate " " st.current_chunk
      let chunk_start := st.char_pos - chunk_text.length
      st.chunks ++ [⟨st.chunks.length, chunk_text, st.current_tokens,
        (chunk_start, st.char_pos), st.current_chunk.length, doc.id, doc.url⟩]
    else if st.current_chunk ≠ [] ∧ st.chunks ≠ [] then
      match st.chunks.getLast? with
      | some last =>
        let merged_text := last.text ++ " " ++ String.intercalate " " st.current_chunk
        st.chunks.dropLast ++ [{ last with
          text := merged_text,
          token_count := estimate_tokens merged_text,
          sentence_count := last.sentence_count + st.current_chunk.length,
          char_range := (last.char_range.1, st.char_pos) }]
      | none => st.chunks
    else st.chunks

/-! ## Report data model (`report_structure.py`)

The `created_at` timestamp of `ReportStructure` is wall-clock metadata and is
omitted; no computation reads it. -/

/-- `report_structure.SectionSpec`. -/
structure SectionSpec where
  title : String
  chapter_number : Nat
  section_number : Nat
  perspective : String
  guidance : String
  target_word_count : Nat
  max_output_tokens : Nat
deriving DecidableEq

/-- `SectionSpec.get_full_id`: `f"{chapter_number}.{section_number}"`. -/
def SectionSpec.get_full_id (s : SectionSpec) : String :=
  toString s.chapter_number ++ "." ++ toString s.section_number

/-- `report_structure.Chapter`. -/
structure Chapter where
  title : String
  perspective : String
  sections : List SectionSpec
  chapter_number : Nat
deriving DecidableEq

/-- `report_structure.ReportStructure`. -/
structure ReportStructure where
  executive_summary : SectionSpec
  chapters : List Chapter
  conclusion : SectionSpec
  estimated_word_count : Nat
  estimated_sections : Nat
deriving DecidableEq

/-- `ReportStructure.total_sections`. -/
def ReportStructure.total_sections (r : ReportStructure) : Nat :=
  2 + (r.chapters.map (fun ch => ch.sections.length)).sum

/-- `report_structure.GeneratedSection`; `generation_time` is a Python float,
modelled as an exact rational. -/
structure GeneratedSection where
  spec : SectionSpec
  content : String
  word_count : Nat
  citations_used : List String
  generation_time : ℚ
  summary : String
deriving DecidableEq

/-- `GeneratedSection.get_section_id`. -/
def GeneratedSection.get_section_id (s : GeneratedSection) : String :=
  s.spec.get_full_id

/-- `GeneratedSection.citation_density`:
`(len(citations_used) / word_count) * 150`, or `0.0` for an empty section. -/
def GeneratedSection.citation_density (s : GeneratedSection) : ℚ :=
  if s.word_count = 0 then 0
  else ((s.citations_used.length : ℚ) / (s.word_count : ℚ)) * 150

/-- `report_structure.ValidationResult`; score fields are Python
`Optional[float]`. -/
structure ValidationResult where
  is_valid : Bool
  section_id : String
  issues : List String
  depth_score : Option ℚ
  citation_score : Option ℚ
  redundancy_score : Option ℚ
  coherence_score : Option ℚ
deriving DecidableEq

/-- `ValidationResult.get_regeneration_guidance`. -/
def ValidationResult.get_regeneration_guidance (r : ValidationResult) : String :=
  if r.issues = [] then ""
  else String.intercalate "\n"
    ("Address the following issues in regeneration:" :: r.issues.map (fun i => "- " ++ i))

/-- `report_structure.ContextSummary`. -/
structure ContextSummary where
  key_insights : List String
  previous_sections : List String
  research_highlights : String
  total_tokens : Nat
deriving DecidableEq

/-! ## Quality validator (`quality_validator.py`) -/

/-- Threshold `MIN_WORD_COUNT = 300`. -/
def MIN_WORD_COUNT : Nat := 300

/-- Threshold `TARGET_WORD_COUNT = 350`. -/
def TARGET_WORD_COUNT : Nat := 350

/-- Threshold `MIN_CITATION_DENSITY = 1.0 / 150` (the source's comment reads
"1 citation per 150 words"). -/
def MIN_CITATION_DENSITY : ℚ := 1 / 150

/-- Threshold `MAX_REDUNDANCY_SIMILARITY = 0.70`. -/
def MAX_REDUNDANCY_SIMILARITY : ℚ := 70 / 100

/-- Threshold `MIN_COHERENCE_SCORE = 0.8`. -/
def MIN_COHERENCE_SCORE : ℚ := 8 / 10

/-- Round a non-negative rational to the nearest integer, ties to even,
matching CPython's float formatting on the values the sources format. -/
def roundHalfEvenNat (q : ℚ) : Nat :=
  let f : Nat := ⌊q⌋.toNat
  let r : ℚ := q - (f : ℚ)
  if r < 1 / 2 then f else if 1 / 2 < r then f + 1 else if f % 2 = 0 then f else f + 1

/-- Left-pad a digit string with zeros to width `d`. -/
def padLeftZeros (d : Nat) (s : String) : String :=
  String.mk (List.replicate (d - s.length) '0') ++ s

/-- Python's `f"{q:.df}"` fixed-point formatting for non-negative values. -/
def fmtFixed (d : Nat) (q : ℚ) : String :=
  let n := roundHalfEvenNat (q * ((10 : ℚ) ^ d))
  if d = 0 then toString n
  else toString (n / 10 ^ d) ++ "." ++ padLeftZeros d (toString (n % 10 ^ d))

/-- `QualityValidator._check_redundancy`: maximal Jaccard similarity of the
lowercased word sets against each previous section. -/
def check_redundancy (sec : GeneratedSection)
    (previous_sections : List GeneratedSection) : ℚ :=
  let current_words := pyDedup [] (pySplitWs (pyLower sec.content))
  previous_sections.foldl
    (fun m prev =>
      let prev_words := pyDedup [] (pySplitWs (pyLower prev.content))
      let inter := (current_words.filter (fun w => w ∈ prev_words)).length
      let un := (pyDedup [] (current_words ++ prev_words)).length
      if un > 0 then max m ((inter : ℚ) / (un : ℚ)) else m)
    0

/-- The error-indicator substrings of `QualityValidator._check_coherence`. -/
def error_indicators : List String :=
  ["generation failed", "error:", "[content generation failed",
   "not implemented", "placeholder"]

/-- `QualityValidator._check_coherence`. -/
def check_coherence (sec : GeneratedSection) : ℚ :=
  let content_lower := pyLower sec.content
  if error_indicators.any (fun ind => pyContains content_lower ind) then 0
  else
    let has_paragraphs := pyContains sec.content "\n\n" || pyContains sec.content "\n"
    let has_sentences := pyContains sec.content ". " || pyContains sec.content ".\n"
    if !(has_paragraphs && has_sentences) then 1 / 2 else 1

/-- `QualityValidator.validate_section` (the `attempt` argument is only
logged by the source, never used in the computation). -/
def validate_section (sec : GeneratedSection)
    (previous_sections : List GeneratedSection) (_attempt : Nat) : ValidationResult :=
  let depth_score : ℚ := (sec.word_count : ℚ) / (TARGET_WORD_COUNT : ℚ)
  let depth_issues : List String :=
    if sec.word_count < MIN_WORD_COUNT then
      ["Insufficient depth: " ++ toString sec.word_count ++ " words (minimum: "
        ++ toString MIN_WORD_COUNT ++ ")"]
    else []
  let citation_score := sec.citation_density
  let citation_issues : List String :=
    if citation_score < MIN_CITATION_DENSITY then
      ["Insufficient citations: " ++ toString sec.citations_used.length
        ++ " citations for " ++ toString sec.word_count ++ " words (target: ≥"
        ++ fmtFixed 1 (MIN_CITATION_DENSITY * (sec.word_count : ℚ)) ++ ")"]
    else []
  let redundancy_score : ℚ :=
    if previous_sections ≠ [] then check_redundancy sec previous_sections else 0
  let redundancy_issues : List String :=
    if previous_sections ≠ [] ∧ redundancy_score > MAX_REDUNDANCY_SIMILARITY then
      ["High redundancy: " ++ fmtFixed 0 (redundancy_score * 100)
        ++ "% similarity with previous sections (threshold: "
        ++ fmtFixed 0 (MAX_REDUNDANCY_SIMILARITY * 100) ++ "%)"]
    else []
  let coherence_score := check_coherence sec
  let coherence_issues : List String :=
    if coherence_score < MIN_COHERENCE_SCORE then
      ["Poor coherence: Section appears to be placeholder or error content"]
    else []
  let issues := depth_issues ++ citation_issues ++ redundancy_issues ++ coherence_issues
  ⟨issues.isEmpty, sec.get_section_id, issues, some depth_score,
    some citation_score, some redundancy_score, some coherence_score⟩

/-- `QualityValidator.should_regenerate` (Python default `max_attempts = 2`). -/
def should_regenerate (validation_result : ValidationResult)
    (attempt max_attempts : Nat) : Bool × String :=
  if attempt ≥ max_attempts then (false, "")
  else if validation_result.is_valid then (false, "")
  else (true, validation_result.get_regeneration_guidance)

/-! ## Report assembler (`report_assembler.py`) -/

/-- Insertion into a sorted list of naturals. -/
def insertSortedNat (n : Nat) : List Nat → List Nat
  | [] => [n]
  | m :: rest => if n ≤ m then n :: m :: rest else m :: insertSortedNat n rest

/-- Ascending sort, modelling Python's `sorted` on the (distinct) chapter
keys. -/
def sortNat (l : List Nat) : List Nat := l.foldr insertSortedNat []

/-- The citations accumulated for chapter `n` by
`organize_citations_by_chapter`'s grouping pass (only sections with a
non-empty `citations_used` touch the `defaultdict`). -/
def chapterCitations (sections : List GeneratedSection) (n : Nat) : List String :=
  ((sections.filter (fun s => s.spec.chapter_number = n ∧ s.citations_used ≠ [])).map
    (fun s => s.citations_used)).flatten

/-- The sorted chapter keys of the grouping `defaultdict`: the distinct
chapter numbers of sections holding at least one citation. -/
def citationKeys (sections : List GeneratedSection) : List Nat :=
  sortNat (pyDedup []
    ((sections.filter (fun s => s.citations_used ≠ [])).map
      (fun s => s.spec.chapter_number)))

/-- The citation strings emitted as `- [...]` bullet items by
`organize_citations_by_chapter`, in emission order: per sorted chapter key,
the per-chapter deduplicated citations. -/
def allBulletCitations (sections : List GeneratedSection) : List String :=
  ((citationKeys sections).map (fun n => pyDedup [] (chapterCitations sections n))).flatten

/-- The per-chapter subsection header; `structure.chapters[chapter_num - 1]`
raises `IndexError` for a chapter number beyond `len(chapters) + 1`. -/
def chapterHeader (struct : ReportStructure) (n : Nat) : Except String String :=
  if n = 0 then .ok "\n## Executive Summary\n"
  else if n = struct.chapters.length + 1 then .ok "\n## Conclusion\n"
  else
    match struct.chapters.get? (n - 1) with
    | some ch => .ok ("\n## Chapter " ++ toString n ++ ": " ++ ch.title ++ "\n")
    | none => .error "IndexError: list index out of range"

/-- `ReportAssembler.organize_citations_by_chapter`. -/
def organize_citations_by_chapter (struct : ReportStructure)
    (sections : List GeneratedSection) : Except String String :=
  let all_citations := (sections.map (fun s => s.citations_used)).flatten
  let unique_citations := pyDedup [] all_citations
  if unique_citations = [] then
    .ok "\n# Citations\n\nNo citations available for this report.\n"
  else do
    let blocks ← (citationKeys sections).mapM (fun n => do
      let hdr ← chapterHeader struct n
      let bullets := (pyDedup [] (chapterCitations sections n)).map
        (fun c => "- [" ++ c ++ "]\n")
      return hdr ++ String.join bullets)
    return "\n# Citations\n" ++ String.join blocks ++ "\n"

/-- Digit grouping helper for `fmtComma`: walks the reversed digits and
inserts a comma after every completed group of three. -/
def fmtCommaAux : List Char → Nat → List Char
  | [], _ => []
  | c :: rest, k =>
    if k = 3 then ',' :: c :: fmtCommaAux rest 1
    else c :: fmtCommaAux rest (k + 1)

/-- Thousands-separator digit grouping, Python's `f"{n:,}"`. -/
def fmtComma (n : Nat) : String :=
  String.mk ((fmtCommaAux (toString n).toList.reverse 0).reverse)

/-- `ReportAssembler.generate_metadata`. -/
def generate_metadata (struct : ReportStructure)
    (sections : List GeneratedSection) : String :=
  let total_words : Nat := (sections.map (fun s => s.word_count)).sum
  let total_sections : Nat := sections.length
  let total_citations : Nat := (sections.map (fun s => s.citations_used.length)).sum
  let total_time : ℚ := (sections.map (fun s => s.generation_time)).sum
  let avg : ℚ := if total_sections > 0 then (total_words : ℚ) / (total_sections : ℚ) else 0
  let density : ℚ :=
    if total_words > 0 then ((total_citations : ℚ) / (total_words : ℚ)) * 150 else 0
  "\n\n---\n\n## Report Metadata\n\n**Generated Report Statistics:**\n- **Total Word Count:** "
    ++ fmtComma total_words ++ " words\n- **Total Sections:** " ++ toString total_sections
    ++ " sections (" ++ toString struct.chapters.length ++ " chapters)\n- **Total Citations:** "
    ++ toString total_citations ++ " sources\n- **Average Section Length:** " ++ fmtFixed 0 avg
    ++ " words\n- **Citation Density:** " ++ fmtFixed 2 density
    ++ " citations per 150 words\n- **Total Generation Time:** " ++ fmtFixed 1 total_time
    ++ " seconds (" ++ fmtFixed 1 (total_time / 60)
    ++ " minutes)\n\n**Report Structure:**\n- Executive Summary: 1 section\n- Main Chapters: "
    ++ toString struct.chapters.length
    ++ " chapters\n- Conclusion: 1 section\n\n*Generated by TTD-DR Structured Report Generation System*\n"

/-- The `section_map` dict-comprehension lookup of `assemble_final_report`
(for duplicate ids the last section wins, as in a Python dict build). -/
def sectionMapGet (sections : List GeneratedSection) (full_id : String) :
    Option GeneratedSection :=
  (sections.filter (fun s => s.spec.get_full_id = full_id)).getLast?

/-- `ReportAssembler.assemble_final_report`. -/
def assemble_final_report (struct : ReportStructure)
    (sections : List GeneratedSection) : Except String String := do
  let p1 :=
    match sectionMapGet sections "0.1" with
    | some ex => "# Executive Summary\n" ++ ex.content ++ "\n\n---\n"
    | none => ""
  let chParts := struct.chapters.map (fun ch =>
    "\n# Chapter " ++ toString ch.chapter_number ++ ": " ++ ch.title ++ "\n"
      ++ "*Perspective: " ++ ch.perspective ++ "*\n"
      ++ String.join (ch.sections.map (fun sp =>
          match sectionMapGet sections sp.get_full_id with
          | some s => "\n## " ++ s.spec.get_full_id ++ " " ++ s.spec.title ++ "\n"
              ++ s.content ++ "\n"
          | none => ""))
      ++ "\n---\n")
  let p3 :=
    match sectionMapGet sections struct.conclusion.get_full_id with
    | some c => "\n# Conclusion\n" ++ c.content ++ "\n\n---\n"
    | none => ""
  let cits ← organize_citations_by_chapter struct sections
  return p1 ++ String.join chParts ++ p3 ++ cits ++ generate_metadata struct sections

/-! ## Context manager (`context_manager.py`)

The LLM service is an oracle `llm : prompt → system_prompt → response`; the
`try/except` fallbacks around LLM calls are unreachable for a total oracle
and are noted where they occur. -/

/-- Constant `TOKENS_PER_WORD = 1.3`. -/
def TOKENS_PER_WORD : ℚ := 13 / 10

/-- `ContextManager._estimate_tokens`: `int(len(text.split()) * 1.3)`. -/
def ctx_estimate_tokens (text : String) : Nat :=
  (((pySplitWs text).length : ℚ) * TOKENS_PER_WORD).floor.toNat

/-- The `COMPRESSION_PROMPT` template, rendered. -/
def COMPRESSION_PROMPT (section_title section_id perspective : String)
    (word_count : Nat) (content : String) : String :=
  "Compress the following report section into a concise summary of ≤200 tokens (~150 words).\n\n**Section:** "
    ++ section_title ++ " (" ++ section_id ++ ")\n**Perspective:** " ++ perspective
    ++ "\n**Word Count:** " ++ toString word_count ++ " words\n\n**Full Content:**\n"
    ++ content
    ++ "\n\n**Instructions:**\n1. Extract 3-5 key insights or findings\n2. Preserve critical facts, numbers, and citations\n3. Remove verbose explanations and redundant content\n4. Maintain technical accuracy\n5. Target length: 150 words (≤200 tokens)\n\n**Compressed Summary:**"

/-- The `KEY_INSIGHTS_EXTRACTION_PROMPT` template, rendered. -/
def KEY_INSIGHTS_EXTRACTION_PROMPT (sections_text : String) : String :=
  "Extract the top 10 most important insights from the following report sections.\n\n**Report Sections:**\n"
    ++ sections_text
    ++ "\n\n**Instructions:**\n1. Identify the 10 most critical findings, facts, or insights\n2. Each insight should be 1-2 sentences\n3. Prioritize unique, actionable, or high-impact information\n4. Avoid redundancy between insights\n5. Maintain factual accuracy\n\n**Output Format:**\n1. [First key insight]\n2. [Second key insight]\n...\n10. [Tenth key insight]\n\n**Top 10 Key Insights:**"

/-- `ContextManager.compress_section_to_summary` (the `except` fallback to
naive truncation only triggers on a raising LLM call, which a total oracle
never does). -/
def compress_section_to_summary (llm : String → String → String)
    (sec : GeneratedSection) : String :=
  llm (COMPRESSION_PROMPT sec.spec.title sec.get_section_id sec.spec.perspective
        sec.word_count sec.content)
    "You are a concise summarization expert. Output summaries only."

/-- The substring after the first `"."` of a line:
Python `line.split(".", 1)[-1]`. -/
def afterFirstDot (line : String) : String :=
  match pySplit line "." with
  | [] => line
  | [_] => line
  | _ :: rest => String.intercalate "." rest

/-- One line of `_extract_key_insights`' numbered-list parser. -/
def parseInsightLine (line : String) : Option String :=
  let l := pyStrip line
  if l ≠ "" ∧ (pyIsDigit (l.toList.headD ' ') ∨ pyStartsWith l "-") then
    let i1 := if pyContains l "." then pyStrip (afterFirstDot l) else l
    let i2 := pyStrip (String.mk (i1.toList.dropWhile (fun c => c = '-' || c = ' ')))
    if i2 ≠ "" then some i2 else none
  else none

/-- `ContextManager._extract_key_insights`. -/
def extract_key_insights (llm : String → String → String)
    (sections : List GeneratedSection) : List String :=
  if sections = [] then []
  else
    let sections_text := sections.map (fun s =>
      if s.summary ≠ "" then
        "[" ++ s.get_section_id ++ "] " ++ s.spec.title ++ ": " ++ s.summary
      else
        "[" ++ s.get_section_id ++ "] " ++ s.spec.title ++ ": "
          ++ String.intercalate " " ((pySplitWs s.content).take 200))
    let combined := String.intercalate "\n\n" sections_text
    let combined :=
      if (pySplitWs combined).length > 3000 then
        String.intercalate " " ((pySplitWs combined).take 3000) ++ "..."
      else combined
    let response := llm (KEY_INSIGHTS_EXTRACTION_PROMPT combined)
      "You are an insight extraction expert. Output numbered lists only."
    ((pySplit response "\n").filterMap parseInsightLine).take 10

/-- Sum of `_estimate_tokens` over the context parts
(`ContextManager._estimate_context_tokens`). -/
def estimate_context_tokens (key_insights previous_sections : List String)
    (research_highlights : String) : Nat :=
  (key_insights.map ctx_estimate_tokens).sum
    + (previous_sections.map ctx_estimate_tokens).sum
    + ctx_estimate_tokens research_highlights

/-- `ContextManager.build_generation_context`; `sliding_window_size` is the
constructor argument (the pipeline uses the default 5).  Python's negative
slices `[-k:]` / `[:-k]` select the whole list / nothing when `k = 0`. -/
def build_generation_context (llm : String → String → String)
    (sliding_window_size : Nat) (generated_sections : List GeneratedSection)
    (research_highlights : String) : ContextSummary :=
  if generated_sections = [] then
    ⟨[], [], research_highlights.take 1000,
      ctx_estimate_tokens (research_highlights.take 1000)⟩
  else
    let k := sliding_window_size
    let recent :=
      if k = 0 then generated_sections
      else generated_sections.drop (generated_sections.length - k)
    let older :=
      if k = 0 then []
      else generated_sections.take (generated_sections.length - k)
    let previous_sections_text :=
      older.map (fun s =>
        if s.summary ≠ "" then
          "[" ++ s.get_section_id ++ "] " ++ s.spec.title ++ ": " ++ s.summary
        else
          "[" ++ s.get_section_id ++ "] " ++ s.spec.title ++ ": "
            ++ compress_section_to_summary llm s)
      ++ recent.map (fun s =>
        "[" ++ s.get_section_id ++ "] " ++ s.spec.title ++ " (Full):\n" ++ s.content)
    let key_insights := extract_key_insights llm generated_sections
    let rh := research_highlights.take 2000
    ⟨key_insights, previous_sections_text, rh,
      estimate_context_tokens key_insights previous_sections_text rh⟩

/-! ## Gemini client retry logic (`gemini_client.py`) -/

/-- Digit-run parser: value, number of digits consumed, remaining input. -/
def parseDigitsAux : List Char → Nat → Nat → Nat × Nat × List Char
  | [], acc, k => (acc, k, [])
  | c :: rest, acc, k =>
    if pyIsDigit c then parseDigitsAux rest (acc * 10 + (c.toNat - 48)) (k + 1)
    else (acc, k, c :: rest)

/-- Case-insensitive literal matcher (the pattern is given lowercase);
returns the remaining input on success. -/
def matchLitCI : List Char → List Char → Option (List Char)
  | l, [] => some l
  | [], _ :: _ => none
  | c :: rest, p :: ps => if pyCharLower c = p then matchLitCI rest ps else none

/-- Attempt of the regex `retry in (\d+(?:\.\d+)?)\s*s` (with `re.IGNORECASE`)
at one start position; the regex is deterministic here, so a greedy scan is
exact.  Returns the matched number as
(integer part, fraction value, fraction digit count). -/
def matchRetryAt (l : List Char) : Option (Nat × Nat × Nat) := do
  let r1 ← matchLitCI l "retry in ".toList
  let (ip, k, r2) := parseDigitsAux r1 0 0
  if k = 0 then none
  else
    let fr :=
      match r2 with
      | '.' :: r2' =>
        let (fv, fk, rr) := parseDigitsAux r2' 0 0
        if fk = 0 then ((0 : Nat), (0 : Nat), r2) else (fv, fk, rr)
      | _ => ((0 : Nat), (0 : Nat), r2)
    let r4 := fr.2.2.dropWhile pyIsSpace
    match r4 with
    | c :: _ => if pyCharLower c = 's' then some (ip, fr.1, fr.2.1) else none
    | [] => none

/-- Leftmost-match scan, as `re.search`. -/
def parseRetryScan : List Char → Option (Nat × Nat × Nat)
  | [] => none
  | c :: rest =>
    match matchRetryAt (c :: rest) with
    | some v => some v
    | none => parseRetryScan rest

/-- The digit parts of the first `retry in <seconds>s` occurrence in the
error text. -/
def parse_retry_parts (s : String) : Option (Nat × Nat × Nat) :=
  parseRetryScan s.toList

/-- The rational value of a parsed `<int>.<frac>` number. -/
def retryPartsVal (t : Nat × Nat × Nat) : ℚ :=
  (t.1 : ℚ) + (t.2.1 : ℚ) / ((10 : ℚ) ^ t.2.2)

/-- `GeminiClient._parse_retry_after`: extract the retry-after seconds
(`float(match.group(1))`) from the first `retry in <seconds>s` occurrence in
the error text. -/
def parse_retry_after (s : String) : Option ℚ :=
  (parse_retry_parts s).map retryPartsVal

/-- Constant `RATE_LIMIT_BUFFER = 5.0` of `_retry_with_backoff`. -/
def RATE_LIMIT_B : ℚ := 5

/-- The `is_rate_limit` test: `"429" in e or "RESOURCE_EXHAUSTED" in e`. -/
def is_rate_limit (e : String) : Bool :=
  pyContains e "429" || pyContains e "RESOURCE_EXHAUSTED"

/-- The `is_transient` test: a `timeout`, `503` or `502` marker. -/
def is_transient (e : String) : Bool :=
  pyContains e "timeout" || pyContains e "503" || pyContains e "502"

/-- The rate-limit branch of `_retry_with_backoff`'s delay computation:
`if retry_after: delay = retry_after + 5.0 else: delay = 60.0 + 5.0`.
Python truthiness makes a parsed `0` fall into the default branch. -/
def rateLimitDelay (e : String) : ℚ :=
  match parse_retry_after e with
  | some t => if t ≠ 0 then t + RATE_LIMIT_B else 60 + RATE_LIMIT_B
  | none => 60 + RATE_LIMIT_B

/-- The transient branch:
`retry_delays[attempt] if attempt < len(retry_delays) else retry_delays[-1]`
(the client default is `[1.0, 2.0, 4.0]`). -/
def transientDelay (retry_delays : List ℚ) (attempt : Nat) : ℚ :=
  if attempt < retry_delays.length then retry_delays.getD attempt 0
  else retry_delays.getLastD 0

/-- The `RuntimeError` message raised on a fatal rate-limit error. -/
def rateLimitFatalMsg (op e : String) (attempt max_retries : Nat) : String :=
  "Gemini API rate limit exceeded for " ++ op ++ "\nError: " ++ e
    ++ "\nAttempts: " ++ toString (attempt + 1) ++ "/" ++ toString max_retries
    ++ "\nPipeline exiting. Please:\n1. Check quota usage: https://ai.dev/usage?tab=rate-limit\n2. Upgrade plan if needed: https://ai.google.dev/pricing\n3. Reduce request frequency or batch operations\n4. Wait for quota reset (free tier: 250 requests/day)"

/-- The `RuntimeError` message raised on any other fatal error. -/
def genericFatalMsg (op e : String) (attempt max_retries : Nat) : String :=
  "Gemini API " ++ op ++ " failed: " ++ e
    ++ "\nAttempts: " ++ toString (attempt + 1) ++ "/" ++ toString max_retries
    ++ "\nPipeline exiting. Please check:\n1. API key is valid\n2. Network connectivity\n3. Gemini API status: https://status.cloud.google.com/"

/-- The attempt loop of `GeminiClient._retry_with_backoff`.  `f attempt` is one
invocation of the wrapped callable; the second result component is the list of
delays slept, in order.  `remaining` counts the iterations left in
`range(max_retries)`. -/
def retryAux {α : Type} (f : Nat → Except String α) (op : String)
    (max_retries : Nat) (retry_delays : List ℚ) :
    Nat → Nat → Except String α × List ℚ
  | _attempt, 0 =>
    (.error ("Gemini API " ++ op ++ " failed after " ++ toString max_retries
      ++ " retries. Pipeline terminated."), [])
  | attempt, remaining + 1 =>
    match f attempt with
    | .ok v => (.ok v, [])
    | .error e =>
      let rl := is_rate_limit e
      let tr := is_transient e
      if (rl || tr) ∧ attempt < max_retries - 1 then
        let delay := if rl then rateLimitDelay e else transientDelay retry_delays attempt
        let r := retryAux f op max_retries retry_delays (attempt + 1) remaining
        (r.1, delay :: r.2)
      else if rl then (.error (rateLimitFatalMsg op e attempt max_retries), [])
      else (.error (genericFatalMsg op e attempt max_retries), [])

/-- `GeminiClient._retry_with_backoff` (the client default is
`max_retries = 3`, `retry_delays = [1.0, 2.0, 4.0]`). -/
def retry_with_backoff {α : Type} (f : Nat → Except String α) (op : String)
    (max_retries : Nat) (retry_delays : List ℚ) : Except String α × List ℚ :=
  retryAux f op max_retries retry_delays 0 max_retries

/-! ## Self-evolution (`generator.py`)

`get_llm_response` is I/O and is modelled by an oracle
`llm : prompt → system_prompt → response`.  It always returns a string
(`content if content else ""`), never `None`. -/

/-- Default system prompt of `get_llm_response`. -/
def DEFAULT_SYS : String := "You are a world-class research assistant."

/-- System prompt of the critique call in `self_evolve`. -/
def CRITIQUE_SYS : String := "You are a critical and constructive reviewer."

/-- The critique prompt f-string of `self_evolve`, with its source
indentation. -/
def critique_prompt (initial_prompt variant : String) : String :=
  "\n            Critique the following text based on the original request. Provide a concise critique and a fitness score from 1 to 10.\n            Then, rewrite the text to address the critique.\n\n            Original Request: "
    ++ initial_prompt
    ++ "\n\n            Text to Critique:\n            ---\n            "
    ++ variant
    ++ "\n            ---\n\n            Provide your response in the following format, and nothing else:\n            CRITIQUE: [Your critique here]\n            SCORE: [Your score here]\n            REVISED_TEXT: [Your improved version of the text]\n            "

/-- The merge prompt f-string of `self_evolve`. -/
def merge_prompt (initial_prompt : String) (variants : List String) : String :=
  "\n    You are given several refined texts that all attempt to answer an original request.\n    Synthesize them into a single, comprehensive, and superior final text.\n\n    Original Request: "
    ++ initial_prompt
    ++ "\n\n    Refined Texts to Merge:\n    ---\n    "
    ++ String.intercalate "---" variants
    ++ "\n    ---\n\n    Produce the final, merged text.\n    "

/-- The per-variant body of one evolution round of `self_evolve`.  The
response is always a string, so the source's `is not None` guard is taken;
`feedback_response.split("REVISED_TEXT:")[1].strip()` raises `IndexError`
when the sentinel is absent. -/
def evolve_once (llm : String → String → String) (initial_prompt variant : String) :
    Except String String :=
  let feedback_response := llm (critique_prompt initial_prompt variant) CRITIQUE_SYS
  match pySplit feedback_response "REVISED_TEXT:" with
  | _ :: p1 :: _ => .ok (pyStrip p1)
  | _ => .error "IndexError: list index out of range"

/-- The evolution rounds of `self_evolve`. -/
def evolveSteps (llm : String → String → String) (initial_prompt : String) :
    Nat → List String → Except String (List String)
  | 0, variants => .ok variants
  | n + 1, variants => do
    let variants' ← variants.mapM (evolve_once llm initial_prompt)
    evolveSteps llm initial_prompt n variants'

/-- `generator.self_evolve`. -/
def self_evolve (llm : String → String → String)
    (initial_prompt system_prompt : String) (num_variants evolution_steps : Nat) :
    Except String (String × List String) := do
  let variants := (List.range num_variants).map (fun _ => llm initial_prompt system_prompt)
  let variants ← evolveSteps llm initial_prompt evolution_steps variants
  let final_merged_text := llm (merge_prompt initial_prompt variants) system_prompt
  return (final_merged_text, variants)

/-! ## Pipeline (`pipeline.py`)

The pipeline's pure control flow is embedded directly.  External components
are oracles in an `Env` record:

* `llm` — `get_llm_response` (always returns a string);
* `complete_with_search` — `GeminiClient.complete_with_search`, the single
  I/O call under `retriever.retrieve_with_grounded_generation`;
* `generate_chapter_outline`, `generate_executive_summary`,
  `generate_section`, `generate_conclusion` — the structure/section
  generators, which never touch the progress callback and may raise.

Progress events delivered to the callback are collected into a trace list.
-/

/-- A grounding citation (`{url, title}`) returned by grounded generation. -/
structure Citation where
  url : String
  title : String
deriving DecidableEq

/-- An entry of `q_a_history`: a description, plus the `query`/`answer` pair
when present. -/
structure HistoryEntry where
  description : String
  qa : Option (String × String)
deriving DecidableEq

/-- The progress-event dict built by `_send_update` (a missing `citations`
key is `none`). -/
structure Event where
  intermediate_steps : Option String
  final_report : Option String
  is_intermediate : Bool
  complete : Bool
  citations : Option (List String)
deriving DecidableEq

/-- The mutable fields of `TTD_DR_Pipeline`. -/
structure PState where
  plan : String
  draft : String
  q_a_history : List HistoryEntry
  intermediate_log : List String
  citations : List String
  enable_structured : Bool
  report_structure : Option ReportStructure
  generated_sections : List GeneratedSection
deriving DecidableEq

/-- The external services of the pipeline. -/
structure Env where
  llm : String → String → String
  complete_with_search : String → String → Except String (String × List Citation)
  generate_chapter_outline : String → String → String → Except String ReportStructure
  generate_executive_summary : ReportStructure → String → String → Except String GeneratedSection
  generate_section : SectionSpec → ContextSummary → String → String → Except String GeneratedSection
  generate_conclusion : ReportStructure → List GeneratedSection → String → Except String GeneratedSection

/-- Constant `NUM_VARIANTS = 1`. -/
def NUM_VARIANTS : Nat := 1

/-- Constant `EVOLUTION_STEPS = 1`. -/
def EVOLUTION_STEPS : Nat := 1

/-- Constant `MAX_SEARCH_ITERATIONS = 1`. -/
def MAX_SEARCH_ITERATIONS : Nat := 1

/-- A fresh pipeline state, as built by `TTD_DR_Pipeline.__init__`. -/
def initialPState (enable_structured : Bool) : PState :=
  ⟨"", "", [], [], [], enable_structured, none, []⟩

/-- `TTD_DR_Pipeline._send_update`: append a non-empty step description to
the log, build the event dict, and invoke the callback (here: emit the
event).  Python truthiness drops an empty `steps_text` and an empty or
missing `citations` list. -/
def sendUpdate (st : PState) (step_description : Option String)
    (is_intermediate : Bool) (final_report_chunk : Option String)
    (citationsArg : Option (List String)) (complete : Bool) : PState × Event :=
  let log :=
    match step_description with
    | some d => if d = "" then st.intermediate_log else st.intermediate_log ++ [d]
    | none => st.intermediate_log
  let steps_text := String.intercalate "|||---|||" log
  ({ st with intermediate_log := log },
   { intermediate_steps := if steps_text = "" then none else some steps_text,
     final_report := final_report_chunk,
     is_intermediate := is_intermediate,
     complete := complete,
     citations :=
       match citationsArg with
       | some l => if l = [] then none else some l
       | none => none })

/-- The `PLAN_PROMPT` template, rendered. -/
def PLAN_PROMPT (query : String) : String :=
  "\nBased on the user's query, create a structured research plan.\nThis plan should outline the key areas, questions, and topics to investigate to provide a comprehensive answer.\nThe plan will serve as a scaffold for the entire research process.\nBreak it down into a list of concise points.\n\nUser Query: \""
    ++ query ++ "\"\n"

/-- The `INITIAL_DRAFT_PROMPT` template, rendered. -/
def INITIAL_DRAFT_PROMPT (query : String) : String :=
  "\nBased on your internal knowledge and the user's query, write a preliminary, high-level draft report.\nThis draft will be refined later with retrieved information. It serves as a starting point and a \"noisy\" skeleton.\n\nUser Query: \""
    ++ query ++ "\"\n"

/-- The `SEARCH_QUERY_GEN_PROMPT` template, rendered. -/
def SEARCH_QUERY_GEN_PROMPT (query plan draft history : String) : String :=
  "\nYou are a researcher in an iterative process. Your goal is to formulate the next best search query to gather information to refine an evolving research report.\n\n**User's Original Query:**\n"
    ++ query ++ "\n\n**Overall Research Plan:**\n" ++ plan
    ++ "\n\n**Current Draft Report (State to be improved):**\n" ++ draft
    ++ "\n\n**History of Previous Searches (Queries and Answers):**\n" ++ history
    ++ "\n\nBased on all the above information, what is the single most important search query to execute right now?\nThe query should be concise, targeted, and aimed at filling gaps or verifying information in the current draft.\nDo not ask a question that has already been answered in the history.\nOutput only the search query, with no preamble.\n"

/-- The `DRAFT_REVISION_PROMPT` template, rendered. -/
def DRAFT_REVISION_PROMPT (query draft search_query new_answer : String) : String :=
  "\nYou are refining a research report. You have a previous version of the draft and new information from a recent search.\nYour task is to integrate the new information into the draft to \"denoise\" it, making it more accurate, detailed, and comprehensive.\nYou can add new sections, expand existing points, or correct inaccuracies.\n\n**User's Original Query:**\n"
    ++ query ++ "\n\n**Previous Draft Report:**\n---\n" ++ draft
    ++ "\n---\n\n**Newly Synthesized Information (from query: \"" ++ search_query
    ++ "\"):**\n---\n" ++ new_answer
    ++ "\n---\n\nProduce the new, revised draft report.\n"

/-- The `FINAL_REPORT_PROMPT` template, rendered. -/
def FINAL_REPORT_PROMPT (query plan draft history citations : String) : String :=
  "\nYou are a research assistant tasked with writing a final, comprehensive report.\nAll the necessary research, including planning, iterative searching, and information synthesis, has been completed.\nUse all the provided information to construct a well-structured, coherent, and detailed final report that directly addresses the user's original query.\n\n**User's Original Query:**\n"
    ++ query ++ "\n\n**Initial Research Plan:**\n" ++ plan
    ++ "\n\n**Final Revised Draft (Skeleton for the report):**\n" ++ draft
    ++ "\n\n**Full History of Questions and Synthesized Answers:**\n" ++ history
    ++ "\n\n**Citations:**\n" ++ citations
    ++ "\n\nNow, write the final, polished report. Start with a \"Final Answer:\" short paragraph summarizing the key findings, followed by detailed sections below and citations where relevant.\n"

/-- `TTD_DR_Pipeline.generate_research_plan` (`self_evolve` may raise). -/
def generate_research_plan (env : Env) (st : PState) (query : String) :
    Except String (PState × List Event) := do
  let r1 := sendUpdate st (some "Generating initial research plan...") true none none false
  let (plan_text, _variants) ← self_evolve env.llm (PLAN_PROMPT query)
    "You are a strategic research planner." NUM_VARIANTS EVOLUTION_STEPS
  let st2 := { r1.1 with plan := plan_text }
  let plan_desc := "**Research Plan Generated:**\n" ++ plan_text
  let st3 := { st2 with q_a_history := st2.q_a_history ++ [⟨plan_desc, none⟩] }
  let r2 := sendUpdate st3 (some plan_desc) true none none false
  return (r2.1, [r1.2, r2.2])

/-- `TTD_DR_Pipeline.generate_initial_draft`. -/
def generate_initial_draft (env : Env) (st : PState) (query : String) :
    PState × List Event :=
  let r1 := sendUpdate st (some "Generating initial draft from internal knowledge...")
    true none none false
  let draft := env.llm (INITIAL_DRAFT_PROMPT query) DEFAULT_SYS
  let st2 := { r1.1 with draft := draft }
  let draft_desc := "**Initial Draft Created:**\n" ++ draft.take 200 ++ "..."
  let st3 := { st2 with q_a_history := st2.q_a_history ++ [⟨draft_desc, none⟩] }
  let r2 := sendUpdate st3 (some draft_desc) true none none false
  (r2.1, [r1.2, r2.2])

/-- The Q&A history rendering used by `generate_search_query`. -/
def historyQAString (hist : List HistoryEntry) : String :=
  String.intercalate "\n"
    (hist.filterMap (fun h => h.qa.map (fun p => "Q: " ++ p.1 ++ "\nA: " ++ p.2)))

/-- `TTD_DR_Pipeline.generate_search_query`: the first iteration uses the raw
user query; later ones ask the LLM. -/
def generate_search_query (env : Env) (st : PState) (query : String)
    (iteration max_iterations : Nat) : String × PState × List Event :=
  let step_desc := "**Iteration " ++ toString (iteration + 1) ++ "/"
    ++ toString max_iterations ++ ":** Generating next search query..."
  let r1 := sendUpdate st (some step_desc) true none none false
  if iteration = 0 then
    let r2 := sendUpdate r1.1
      (some ("**Searching for (direct query):** `" ++ query ++ "`")) true none none false
    (query, r2.1, [r1.2, r2.2])
  else
    let history_str := historyQAString r1.1.q_a_history
    let search_query := env.llm
      (SEARCH_QUERY_GEN_PROMPT query r1.1.plan r1.1.draft history_str) DEFAULT_SYS
    let r2 := sendUpdate r1.1
      (some ("**Searching for (generated query):** `" ++ search_query ++ "`"))
      true none none false
    (search_query, r2.1, [r1.2, r2.2])

/-- System prompt of `retriever.retrieve_with_grounded_generation`. -/
def GROUNDED_SYS : String :=
  "You are a world-class research analyst. Provide comprehensive, well-researched answers with specific facts and details from web sources."

/-- `retriever.retrieve_with_grounded_generation` (its `except` clause
re-raises, so it is the identity on errors). -/
def retrieve_with_grounded_generation (env : Env) (query context_prompt : String) :
    Except String (String × List Citation) :=
  let full_prompt := if context_prompt ≠ "" then context_prompt ++ "\n\n" ++ query else query
  env.complete_with_search full_prompt GROUNDED_SYS

/-- The context prompt built inside
`TTD_DR_Pipeline.retrieve_and_synthesize_documents`. -/
def groundedContextPrompt (search_query : String) : String :=
  "You are researching to answer this query: " ++ search_query
    ++ "\n\nProvide a comprehensive, well-researched answer based on current web information.\nFocus on specific facts, data, and details from authoritative sources."

/-- `TTD_DR_Pipeline.retrieve_and_synthesize_documents`: on success, extend
`citations`, append a `query`/`answer` history entry and send two updates; on
any exception from grounded generation, recover locally with the placeholder
answer and a warning update, leaving `q_a_history` and `citations` untouched. -/
def retrieve_and_synthesize_documents (env : Env) (st : PState)
    (search_query : String) : String × PState × List Event :=
  let r1 := sendUpdate st
    (some "Searching web and synthesizing answer with Gemini grounded generation...")
    true none none false
  match retrieve_with_grounded_generation env search_query (groundedContextPrompt search_query) with
  | .ok (synthesized_answer, citations_list) =>
    let citations := citations_list.map (fun c => c.url)
    let st2 := { r1.1 with citations := r1.1.citations ++ citations }
    let r2 := sendUpdate st2
      (some ("**Grounded generation complete:** " ++ toString citations.length
        ++ " sources used. Synthesizing answer..."))
      true none (if citations = [] then none else some citations) false
    let desc := "**Synthesized Answer for `" ++ search_query ++ "`:**\n" ++ synthesized_answer
    let st3 := { r2.1 with q_a_history :=
      r2.1.q_a_history ++ [⟨desc, some (search_query, synthesized_answer)⟩] }
    let r3 := sendUpdate st3 (some desc) true none none false
    (synthesized_answer, r3.1, [r1.2, r2.2, r3.2])
  | .error e =>
    let error_msg := "Unable to retrieve web information for this query: " ++ e
    let r2 := sendUpdate r1.1 (some ("**Warning:** " ++ error_msg)) true none none false
    (error_msg, r2.1, [r1.2, r2.2])

/-- `TTD_DR_Pipeline.revise_draft_with_new_info`. -/
def revise_draft_with_new_info (env : Env) (st : PState)
    (query search_query synthesized_answer : String) (iteration : Nat) :
    PState × List Event :=
  let r1 := sendUpdate st (some "Revising draft with new information...") true none none false
  let draft := env.llm
    (DRAFT_REVISION_PROMPT query r1.1.draft search_query synthesized_answer) DEFAULT_SYS
  let st2 := { r1.1 with draft := draft }
  let revised_desc := "**Revised Draft " ++ toString (iteration + 1) ++ ":**\n"
    ++ draft.take 200 ++ "..."
  let st3 := { st2 with q_a_history := st2.q_a_history ++ [⟨revised_desc, none⟩] }
  let r2 := sendUpdate st3 (some revised_desc) true none none false
  (r2.1, [r1.2, r2.2])

/-- The `for i in range(max_iterations)` loop of
`perform_iterative_search_and_synthesis`; an empty (stripped) search query
skips the iteration. -/
def iterLoop (env : Env) (query : String) (max_iterations : Nat) :
    PState → Nat → Nat → PState × List Event
  | st, _i, 0 => (st, [])
  | st, i, remaining + 1 =>
    let r1 := generate_search_query env st query i max_iterations
    if pyStrip r1.1 = "" then
      let r := iterLoop env query max_iterations r1.2.1 (i + 1) remaining
      (r.1, r1.2.2 ++ r.2)
    else
      let r2 := retrieve_and_synthesize_documents env r1.2.1 r1.1
      let r3 := revise_draft_with_new_info env r2.2.1 query r1.1 r2.1 i
      let r := iterLoop env query max_iterations r3.1 (i + 1) remaining
      (r.1, r1.2.2 ++ r2.2.2 ++ r3.2 ++ r.2)

/-- `TTD_DR_Pipeline.perform_iterative_search_and_synthesis`. -/
def perform_iterative_search_and_synthesis (env : Env) (st : PState)
    (query : String) (max_iterations : Nat) : PState × List Event :=
  iterLoop env query max_iterations st 0 max_iterations

/-- `TTD_DR_Pipeline.generate_final_report`: the legacy single-pass path,
ending with the one `complete = true` event. -/
def generate_final_report (env : Env) (st : PState) (query : String) :
    PState × List Event :=
  let r1 := sendUpdate st (some "All research steps complete. Generating final report...")
    true none none false
  let history_str := String.intercalate "\n\n"
    (r1.1.q_a_history.filterMap (fun h =>
      h.qa.map (fun p => "**Question:** " ++ p.1 ++ "\n**Answer:** " ++ p.2)))
  let citations_str := String.intercalate "\n" r1.1.citations
  let final_report_content := env.llm
    (FINAL_REPORT_PROMPT query r1.1.plan r1.1.draft history_str citations_str) DEFAULT_SYS
  let r2 := sendUpdate r1.1 (some "Final report generated.") false
    (some final_report_content) (some r1.1.citations) true
  (r2.1, [r1.2, r2.2])

/-- `TTD_DR_Pipeline.generate_report_structure` (a no-op when structured
generation is disabled). -/
def generate_report_structure (env : Env) (st : PState) (query : String) :
    Except String (PState × List Event) :=
  if st.enable_structured = false then .ok (st, [])
  else do
    let r1 := sendUpdate st (some "Generating comprehensive report structure...")
      true none none false
    let research_summary := String.intercalate "\n"
      (r1.1.q_a_history.filterMap (fun h =>
        h.qa.map (fun p => "Q: " ++ p.1 ++ "\nA: " ++ p.2.take 200 ++ "...")))
    let rs ← env.generate_chapter_outline query r1.1.plan research_summary
    let st2 := { r1.1 with report_structure := some rs }
    let structure_desc := "**Report Structure Generated:**\n- "
      ++ toString rs.total_sections ++ " total sections\n- "
      ++ toString rs.chapters.length ++ " chapters\n- ~"
      ++ toString rs.estimated_word_count ++ " target words"
    let r2 := sendUpdate st2 (some structure_desc) true none none false
    return (r2.1, [r1.2, r2.2])

/-- `TTD_DR_Pipeline._prepare_research_data`. -/
def prepare_research_data (st : PState) : String :=
  String.intercalate "\n"
    (st.q_a_history.filterMap (fun h =>
      h.qa.map (fun p => "**Research Query:** " ++ p.1 ++ "\n**Findings:** " ++ p.2 ++ "\n")))

/-- The `while attempt <= max_attempts` loop of
`TTD_DR_Pipeline._generate_section_with_validation`.  The source resets
`regeneration_guidance = ""` at the top of every iteration before the
generator call, so the guidance computed by the validator is never passed
on.  `fuel` bounds the loop (`max_attempts + 1` suffices); exhausting it
models falling off the `while` with `section` unbound. -/
def genSectionLoop (env : Env) (sp : SectionSpec) (research_data progress : String)
    (max_attempts : Nat) : PState → Nat → Nat →
    Except String (GeneratedSection × PState × List Event)
  | _st, _attempt, 0 => .error "UnboundLocalError: section"
  | st, attempt, fuel + 1 =>
    if attempt > max_attempts then .error "UnboundLocalError: section"
    else do
      let context := build_generation_context env.llm 5 st.generated_sections research_data
      let r1 :=
        if attempt > 1 then
          let r := sendUpdate st (some (progress ++ ": Regenerating (attempt "
            ++ toString attempt ++ "/" ++ toString max_attempts ++ ")..."))
            true none none false
          (r.1, [r.2])
        else (st, ([] : List Event))
      let sec ← env.generate_section sp context research_data ""
      let validation_result := validate_section sec r1.1.generated_sections attempt
      let sr := should_regenerate validation_result attempt max_attempts
      if sr.1 = false then
        if validation_result.is_valid = false then
          let r2 := sendUpdate r1.1 (some ("⚠️ " ++ progress
            ++ ": Quality issues detected but proceeding (max attempts reached)"))
            true none none false
          return (sec, r2.1, r1.2 ++ [r2.2])
        else return (sec, r1.1, r1.2)
      else do
        let r ← genSectionLoop env sp research_data progress max_attempts r1.1 (attempt + 1) fuel
        return (r.1, r.2.1, r1.2 ++ r.2.2)

/-- The inner `for section_spec in chapter.sections` loop of
`generate_structured_report` (`cur` is the running `current_section`
counter). -/
def sectionsLoop (env : Env) (research_data : String) (total_main max_attempts : Nat) :
    PState → Nat → List SectionSpec → Except String (PState × Nat × List Event)
  | st, cur, [] => .ok (st, cur, [])
  | st, cur, sp :: rest => do
    let cur1 := cur + 1
    let progress := "Section " ++ toString cur1 ++ "/" ++ toString total_main
    let (sec, st1, t1) ← genSectionLoop env sp research_data progress max_attempts
      st 1 (max_attempts + 1)
    let sec1 := { sec with summary := compress_section_to_summary env.llm sec }
    let st2 := { st1 with generated_sections := st1.generated_sections ++ [sec1] }
    let r3 := sendUpdate st2 (some ("Completed " ++ progress ++ ": " ++ sec1.spec.title
      ++ " (" ++ toString sec1.word_count ++ " words, "
      ++ toString sec1.citations_used.length ++ " citations)")) true none none false
    let r ← sectionsLoop env research_data total_main max_attempts r3.1 cur1 rest
    return (r.1, r.2.1, t1 ++ [r3.2] ++ r.2.2)

/-- The outer `for chapter in self.report_structure.chapters` loop of
`generate_structured_report`. -/
def chaptersLoop (env : Env) (research_data : String) (total_main max_attempts : Nat) :
    PState → Nat → List Chapter → Except String (PState × Nat × List Event)
  | st, cur, [] => .ok (st, cur, [])
  | st, cur, ch :: rest => do
    let r1 := sendUpdate st (some ("Starting Chapter " ++ toString ch.chapter_number
      ++ ": " ++ ch.title)) true none none false
    let (st2, cur2, t2) ← sectionsLoop env research_data total_main max_attempts
      r1.1 cur ch.sections
    let r ← chaptersLoop env research_data total_main max_attempts st2 cur2 rest
    return (r.1, r.2.1, r1.2 :: t2 ++ r.2.2)

/-- `TTD_DR_Pipeline.generate_structured_report`: the section-by-section
path, falling back to `generate_final_report` when structured generation is
disabled or no structure was produced.  Its `max_attempts` is the local
`max_attempts = 2` of `_generate_section_with_validation`. -/
def generate_structured_report (env : Env) (st : PState) (query : String) :
    Except String (PState × List Event) :=
  match st.enable_structured, st.report_structure with
  | true, some rs => do
    let r1 := sendUpdate st (some "Starting structured report generation...")
      true none none false
    let research_data := prepare_research_data r1.1
    let exec_summary ← env.generate_executive_summary rs query research_data
    let st2 := { r1.1 with generated_sections := r1.1.generated_sections ++ [exec_summary] }
    let r2 := sendUpdate st2 (some ("Executive Summary generated ("
      ++ toString exec_summary.word_count ++ " words)")) true none none false
    let total_main := (rs.chapters.map (fun ch => ch.sections.length)).sum
    let (st4, _cur, t3) ← chaptersLoop env research_data total_main 2 r2.1 0 rs.chapters
    let conclusion ← env.generate_conclusion rs st4.generated_sections query
    let st5 := { st4 with generated_sections := st4.generated_sections ++ [conclusion] }
    let r4 := sendUpdate st5 (some ("Conclusion generated ("
      ++ toString conclusion.word_count ++ " words)")) true none none false
    let r5 := sendUpdate r4.1 (some "Assembling final report...") true none none false
    let final_report ← assemble_final_report rs r5.1.generated_sections
    let r6 := sendUpdate r5.1 (some "Structured report generation complete.") false
      (some final_report) (some r5.1.citations) true
    return (r6.1, [r1.2, r2.2] ++ t3 ++ [r4.2, r5.2, r6.2])
  | _, _ => .ok (generate_final_report env st query)

/-- `TTD_DR_Pipeline.run`. -/
def run (env : Env) (st : PState) (query : String) (max_iterations : Nat) :
    Except String (PState × List Event) := do
  let (st1, t1) ← generate_research_plan env st query
  let r2 := generate_initial_draft env st1 query
  let r3 := perform_iterative_search_and_synthesis env r2.1 query max_iterations
  if r3.1.enable_structured then do
    let (st4, t4) ← generate_report_structure env r3.1 query
    let (st5, t5) ← generate_structured_report env st4 query
    return (st5, t1 ++ r2.2 ++ r3.2 ++ t4 ++ t5)
  else
    let r4 := generate_final_report env r3.1 query
    return (r4.1, t1 ++ r2.2 ++ r3.2 ++ r4.2)

/-! ## Trace predicates and concrete fixtures -/

/-- Decidable equality for `Except`, for evaluating concrete run results. -/
instance exceptDecEq {ε α : Type} [DecidableEq ε] [DecidableEq α] :
    DecidableEq (Except ε α)
  | .ok a, .ok b =>
    if h : a = b then isTrue (by rw [h])
    else isFalse (by intro hh; cases hh; exact h rfl)
  | .ok _, .error _ => isFalse (by intro h; cases h)
  | .error _, .ok _ => isFalse (by intro h; cases h)
  | .error a, .error b =>
    if h : a = b then isTrue (by rw [h])
    else isFalse (by intro hh; cases hh; exact h rfl)

/-- Every event of the trace is a non-final progress event. -/
def allIntermediate (tr : List Event) : Prop := ∀ e ∈ tr, e.complete = false

/-- The trace ends with its unique `complete = true` event. -/
def endsComplete (tr : List Event) : Prop :=
  ∃ t0 e, tr = t0 ++ [e] ∧ e.complete = true ∧ allIntermediate t0

/-- Boolean success test for a pipeline run result. -/
def exceptIsOk (r : Except String (PState × List Event)) : Bool :=
  match r with
  | .ok _ => true
  | .error _ => false

/-- Fixture: a section specification. -/
def specFix : SectionSpec := ⟨"Background", 1, 1, "Technical", "Cover the basics.", 350, 2048⟩

/-- Fixture for the citation-density check: 300 words, one citation, clean
coherent content. -/
def secFixC2 : GeneratedSection :=
  ⟨specFix, "Alpha beta gamma. More words follow here.\nSecond line of text.",
    300, ["Source 1"], 0, ""⟩

/-- Fixture: an invalid validation result with one recorded issue. -/
def vrFix : ValidationResult :=
  ⟨false, "1.1", ["Insufficient depth: 100 words (minimum: 300)"], none, none, none, none⟩

/-- Fixture: a 1001-character research-highlights string. -/
def bigHighlights : String := String.mk (List.replicate 1001 'a')

/-- Fixture: an environment whose grounded search always raises. -/
def envGroundedFail : Env :=
  ⟨fun _ _ => "", fun _ _ => .error "boom", fun _ _ _ => .error "unused",
   fun _ _ _ => .error "unused", fun _ _ _ _ => .error "unused", fun _ _ _ => .error "unused"⟩

/-- Fixture: an environment whose LLM always answers with a well-formed
revision sentinel, for exercising a full legacy-path run. -/
def envRunFix : Env :=
  ⟨fun _ _ => "REVISED_TEXT: ok", fun _ _ => .ok ("ans", [⟨"http://u", "t"⟩]),
   fun _ _ _ => .error "unused", fun _ _ _ => .error "unused",
   fun _ _ _ _ => .error "unused", fun _ _ _ => .error "unused"⟩

/-- Fixture: a one-chapter report structure. -/
def structFix : ReportStructure :=
  ⟨⟨"Executive Summary", 0, 1, "Summary", "g", 350, 2048⟩,
   [⟨"Chapter One", "Technical", [specFix], 1⟩],
   ⟨"Conclusion", 2, 1, "Conclusion", "g", 350, 2048⟩,
   2000, 3⟩

/-- Fixture: generated sections with citations for the assembler claim. -/
def sectionsFixC7 : List GeneratedSection :=
  [⟨⟨"Executive Summary", 0, 1, "Summary", "g", 350, 2048⟩, "Exec.", 5, ["http://a", "http://b"], 0, ""⟩,
   ⟨specFix, "Body.", 5, ["http://b", "http://a", "http://b"], 0, ""⟩,
   ⟨⟨"Conclusion", 2, 1, "Conclusion", "g", 350, 2048⟩, "End.", 5, [], 0, ""⟩]

/-- Fixture: a short document for the chunker claims. -/
def docFix : Doc := ⟨"Hello there my friend. Good day to you.", none, some "d1", none⟩

/-- Fixture: an LLM response holding two `REVISED_TEXT:` sentinels. -/
def llmFixC5 : String → String → String :=
  fun _ _ => "CRITIQUE: c\nSCORE: 5\nREVISED_TEXT: A REVISED_TEXT: B"

/-- Invariant of the chunker's packing loop, under the side condition that
every sentence estimate fits `max_tokens - overlap`: all emitted chunks and
the running total are bounded, an empty current chunk carries zero tokens,
and every buffered sentence satisfies the side condition. -/
def ChunkInv (maxT ov : Nat) (st : ChunkState) : Prop :=
  (∀ c ∈ st.chunks, c.token_count ≤ maxT) ∧
  st.current_tokens ≤ maxT ∧
  (st.current_chunk = [] → st.current_tokens = 0) ∧
  (∀ s ∈ st.current_chunk, estimate_tokens s + ov ≤ maxT)

/-! ## Theorems -/

theorem allIntermediate_append {t1 t2 : List Event} :
    allIntermediate (t1 ++ t2) ↔ allIntermediate t1 ∧ allIntermediate t2 := by
  constructor
  · intro h
    exact ⟨fun e he => h e (List.mem_append_left _ he),
           fun e he => h e (List.mem_append_right _ he)⟩
  · rintro ⟨h1, h2⟩ e he
    rcases List.mem_append.mp he with h | h
    · exact h1 e h
    · exact h2 e h

theorem citation_density_fix : secFixC2.citation_density = 1 / 2 := by
  norm_num [GeneratedSection.citation_density, secFixC2, specFix]

theorem coherence_fix : check_coherence secFixC2 = 1 := by
  simp only [check_coherence]
  rw [if_neg (by decide), if_neg (by decide)]

/-- C2 (code bug): `validate_section` records no "Insufficient citations"
issue for a 300-word section with a single citation, although its citation
density `(1/300)*150 = 1/2` is below 1 citation per 150 words.  The code
compares the ×150-scaled density against the unscaled `MIN_CITATION_DENSITY
= 1/150`, contradicting its own documentation ("Citations: ≥1 per 150
words", "target: ≥1.0"). -/
theorem c2_citation_threshold_mismatch :
    secFixC2.citation_density < 1 ∧ (validate_section secFixC2 [] 1).issues = [] := by
  constructor
  · rw [citation_density_fix]; norm_num
  · simp only [validate_section]
    rw [if_neg (by decide), if_neg (by rw [citation_density_fix]; norm_num [MIN_CITATION_DENSITY]),
        if_neg (by simp), if_neg (by rw [coherence_fix]; norm_num [MIN_COHERENCE_SCORE])]
    simp

/-- C8: for every validation result whose issue list is consistent with its
validity flag, `should_regenerate` accepts the section once
`attempt ≥ max_attempts` (default 2), accepts valid results, and otherwise
returns `true` with guidance whose first line is the literal
"Address the following issues in regeneration:" followed by one
"- "-prefixed line per issue. -/
theorem c8_should_regenerate_policy (r : ValidationResult) (attempt max_attempts : Nat)
    (hcons : r.is_valid = false → r.issues ≠ []) :
    (attempt ≥ max_attempts → should_regenerate r attempt max_attempts = (false, "")) ∧
    (attempt < max_attempts → r.is_valid = true →
      should_regenerate r attempt max_attempts = (false, "")) ∧
    (attempt < max_attempts → r.is_valid = false →
      should_regenerate r attempt max_attempts =
        (true, String.intercalate "\n"
          ("Address the following issues in regeneration:" :: r.issues.map (fun i => "- " ++ i)))) := by
  refine ⟨fun h1 => ?_, fun h1 h2 => ?_, fun h1 h2 => ?_⟩
  · simp [should_regenerate, h1]
  · simp [should_regenerate, Nat.not_le.mpr h1, h2]
  · have hne := hcons h2
    simp [should_regenerate, Nat.not_le.mpr h1, h2, ValidationResult.get_regeneration_guidance, hne]

/-- Witness for C8 at an invalid result with one issue, attempt 1 of 2. -/
theorem c8_should_regenerate_policy_witness :
    should_regenerate vrFix 1 2 =
      (true, "Address the following issues in regeneration:\n- Insufficient depth: 100 words (minimum: 300)") := by
  have h := (c8_should_regenerate_policy vrFix 1 2 (by decide)).2.2 (by decide) (by decide)
  exact h.trans (by decide)

/-- C9 (amended): the `research_highlights` field of the context built by
`build_generation_context` is the first 1,000 characters of the argument
when no sections have been generated yet, and the first 2,000 characters
otherwise — not 2,000 characters regardless of progress. -/
theorem c9_highlights_truncation (llm : String → String → String) (k : Nat)
    (secs : List GeneratedSection) (rh : String) :
    (build_generation_context llm k secs rh).research_highlights =
      rh.take (if secs = [] then 1000 else 2000) := by
  by_cases h : secs = [] <;> simp [build_generation_context, h]

/-- Counterexample for C9 as stated: with no generated sections and a
1,001-character highlights string, the stored highlights differ from the
first 2,000 characters (the whole string); the code truncates to 1,000. -/
theorem c9_highlights_truncation_counterexample :
    (build_generation_context (fun _ _ => "") 5 [] bigHighlights).research_highlights ≠
      bigHighlights.take 2000 := by
  have h : (build_generation_context (fun _ _ => "") 5 [] bigHighlights).research_highlights
      = bigHighlights.take 1000 := by
    simp [build_generation_context]
  rw [h]
  intro hEq
  have hlen := congrArg (fun s => s.1.length) hEq
  simp only [String.data_take, List.length_take] at hlen
  have hbig : bigHighlights.1 = List.replicate 1001 'a' := rfl
  rw [hbig] at hlen
  simp only [List.length_replicate] at hlen
  omega


theorem parse_retry_after_zero : parse_retry_after "429 Please retry in 0s." = some 0 := by
  have h : parse_retry_parts "429 Please retry in 0s." = some (0, 0, 0) := by decide
  simp [parse_retry_after, h, retryPartsVal]

/-- Counterexample for C6 as stated: the error text "429 Please retry in
0s." parses to 0 seconds, yet the rate-limit delay is 65 seconds, not
`0 + 5`: Python's `if retry_after:` treats a parsed 0.0 as a parse
failure. -/
theorem c6_retry_delay_counterexample :
    parse_retry_after "429 Please retry in 0s." = some 0 ∧
    is_rate_limit "429 Please retry in 0s." = true ∧
    rateLimitDelay "429 Please retry in 0s." = 65 ∧
    (65 : ℚ) ≠ 0 + 5 := by
  refine ⟨parse_retry_after_zero, by decide, ?_, by norm_num⟩
  simp [rateLimitDelay, parse_retry_after_zero, RATE_LIMIT_B]
  norm_num

/-- C6 (amended): on any retried attempt whose error is a rate limit, the
first delay slept by the `_retry_with_backoff` loop is `rateLimitDelay e`;
that delay equals the parsed `retry in <seconds>s` value plus the 5-second
buffer whenever a non-zero value parses, and 65 seconds (60 + 5) when the
pattern is absent or parses to zero. -/
theorem c6_rate_limit_delay (f : Nat → Except String Unit) (op : String) (max_retries : Nat)
    (retry_delays : List ℚ) (attempt remaining : Nat) (e : String)
    (hf : f attempt = .error e) (hrl : is_rate_limit e = true)
    (hlt : attempt < max_retries - 1) (hrem : 1 ≤ remaining) :
    (retryAux f op max_retries retry_delays attempt remaining).2.head? =
      some (rateLimitDelay e) ∧
    (∀ t, parse_retry_after e = some t → t ≠ 0 → rateLimitDelay e = t + 5) ∧
    ((parse_retry_after e = none ∨ parse_retry_after e = some 0) →
      rateLimitDelay e = 65) := by
  refine ⟨?_, ?_, ?_⟩
  · obtain ⟨r, rfl⟩ : ∃ r, remaining = r + 1 := ⟨remaining - 1, by omega⟩
    simp only [retryAux, hf]
    rw [if_pos ⟨by simp [hrl], hlt⟩]
    simp [hrl]
  · intro t hp ht
    simp [rateLimitDelay, hp, ht, RATE_LIMIT_B]
  · rintro (hp | hp) <;> simp [rateLimitDelay, hp, RATE_LIMIT_B] <;> norm_num

/-- Witness for C6 at the error "429 retry in 7s": the first sleep is the
rate-limit delay, which is 7 + 5 = 12 seconds. -/
theorem c6_rate_limit_delay_witness :
    (retryAux (fun _ => (.error "429 retry in 7s" : Except String Unit))
      "LLM completion" 3 [1, 2, 4] 0 3).2.head? =
        some (rateLimitDelay "429 retry in 7s") ∧
    rateLimitDelay "429 retry in 7s" = 12 := by
  constructor
  · exact (c6_rate_limit_delay (fun _ => .error "429 retry in 7s") "LLM completion" 3 [1, 2, 4]
      0 3 "429 retry in 7s" rfl (by decide) (by decide) (by decide)).1
  · have hp : parse_retry_after "429 retry in 7s" = some 7 := by
      have h : parse_retry_parts "429 retry in 7s" = some (7, 0, 0) := by decide
      simp [parse_retry_after, h, retryPartsVal]
    have h2 := (c6_rate_limit_delay (fun _ => (.error "429 retry in 7s" : Except String Unit))
      "LLM completion" 3 [1, 2, 4] 0 3 "429 retry in 7s" rfl (by decide) (by decide)
      (by decide)).2.1 7 hp (by norm_num)
    rw [h2]; norm_num

/-- Counterexample for C5 as stated: on a critique response holding two
`REVISED_TEXT:` sentinels, the evolved variant is the piece between the
first sentinel and the second ("A"), not the piece after the last sentinel
("B"). -/
theorem c5_revised_text_counterexample :
    evolve_once llmFixC5 "p" "v" = .ok "A" ∧
    pyStrip ((pySplit (llmFixC5 (critique_prompt "p" "v") CRITIQUE_SYS)
      "REVISED_TEXT:").getLastD "") = "B" ∧
    ("A" : String) ≠ "B" := by
  refine ⟨by decide, by decide, by decide⟩

/-- C5 (amended): one evolution step of `self_evolve` replaces a variant by
the stripped piece between the first `REVISED_TEXT:` sentinel and the next
one (Python `split("REVISED_TEXT:")[1]`); when the response has no sentinel
an `IndexError` propagates instead of the original variant being kept — the
`is not None` guard never fires because responses are always strings. -/
theorem c5_revised_text_parse (llm : String → String → String) (ip v : String) :
    ((pySplit (llm (critique_prompt ip v) CRITIQUE_SYS) "REVISED_TEXT:").length ≥ 2 →
      evolve_once llm ip v =
        .ok (pyStrip ((pySplit (llm (critique_prompt ip v) CRITIQUE_SYS)
          "REVISED_TEXT:").getD 1 ""))) ∧
    ((pySplit (llm (critique_prompt ip v) CRITIQUE_SYS) "REVISED_TEXT:").length < 2 →
      evolve_once llm ip v = .error "IndexError: list index out of range") := by
  constructor <;> intro h <;>
    rcases hp : pySplit (llm (critique_prompt ip v) CRITIQUE_SYS) "REVISED_TEXT:" with
      _ | ⟨x, _ | ⟨y, rest⟩⟩
  · rw [hp] at h; simp at h
  · rw [hp] at h; simp at h
  · simp [evolve_once, hp]
  · simp [evolve_once, hp]
  · simp [evolve_once, hp]
  · rw [hp] at h; simp at h
    omega

/-- Witness for C5 on a response with one sentinel. -/
theorem c5_revised_text_parse_witness :
    evolve_once (fun _ _ => "REVISED_TEXT: ok") "p" "v" = .ok "ok" := by
  have h := (c5_revised_text_parse (fun _ _ => "REVISED_TEXT: ok") "p" "v").1 (by decide)
  exact h.trans (by decide)

/-- C1 (amended): when grounded retrieval raises, the iteration of
`retrieve_and_synthesize_documents` recovers locally: it returns the
placeholder "Unable to retrieve web information for this query: <msg>",
sends a warning update, and leaves BOTH the Q&A history and the citations
list unchanged — no history entry is appended for the failed query. -/
theorem c1_grounded_failure_recovery (env : Env) (st : PState) (q msg : String)
    (h : retrieve_with_grounded_generation env q (groundedContextPrompt q) = .error msg) :
    (retrieve_and_synthesize_documents env st q).1 =
      "Unable to retrieve web information for this query: " ++ msg ∧
    (retrieve_and_synthesize_documents env st q).2.1.q_a_history = st.q_a_history ∧
    (retrieve_and_synthesize_documents env st q).2.1.citations = st.citations := by
  simp only [retrieve_and_synthesize_documents, h]
  simp [sendUpdate]

/-- Witness for C1 with an environment whose grounded search always
fails. -/
theorem c1_grounded_failure_recovery_witness :
    (retrieve_and_synthesize_documents envGroundedFail (initialPState true) "q").1 =
      "Unable to retrieve web information for this query: " ++ "boom" := by
  exact (c1_grounded_failure_recovery envGroundedFail (initialPState true) "q" "boom" (by decide)).1

/-- Counterexample for C1 as stated: starting from an empty history, a
failing grounded retrieval leaves the history empty — no query/answer entry
is appended, contrary to the claim. -/
theorem c1_grounded_failure_history_counterexample :
    (retrieve_and_synthesize_documents envGroundedFail (initialPState true) "q").2.1.q_a_history
      = [] ∧
    (retrieve_and_synthesize_documents envGroundedFail (initialPState true) "q").1 =
      "Unable to retrieve web information for this query: boom" := by
  constructor <;> decide


theorem mem_pyDedup {α : Type} [DecidableEq α] (seen l : List α) (x : α) :
    x ∈ pyDedup seen l ↔ x ∈ l ∧ x ∉ seen := by
  induction l generalizing seen with
  | nil => simp [pyDedup]
  | cons a rest ih =>
    simp only [pyDedup]
    by_cases h : a ∈ seen
    · rw [if_pos h, ih]
      simp only [List.mem_cons]
      constructor
      · rintro ⟨hx, hs⟩
        exact ⟨Or.inr hx, hs⟩
      · rintro ⟨hx | hx, hs⟩
        · subst hx; exact absurd h hs
        · exact ⟨hx, hs⟩
    · rw [if_neg h]
      simp only [List.mem_cons, ih, not_or]
      by_cases hxa : x = a
      · subst hxa; tauto
      · tauto

theorem mem_insertSortedNat (n : Nat) (l : List Nat) (x : Nat) :
    x ∈ insertSortedNat n l ↔ x = n ∨ x ∈ l := by
  induction l with
  | nil => simp [insertSortedNat]
  | cons m rest ih =>
    simp only [insertSortedNat]
    by_cases h : n ≤ m
    · rw [if_pos h]; simp [List.mem_cons]
    · rw [if_neg h]
      simp only [List.mem_cons, ih]
      tauto

theorem mem_sortNat (l : List Nat) (x : Nat) : x ∈ sortNat l ↔ x ∈ l := by
  induction l with
  | nil => simp [sortNat]
  | cons a rest ih =>
    simp only [sortNat, List.foldr_cons] at *
    rw [mem_insertSortedNat]
    simp [ih, List.mem_cons]

theorem mem_allBulletCitations (sections : List GeneratedSection) (c : String) :
    c ∈ allBulletCitations sections ↔
      c ∈ (sections.map (fun s => s.citations_used)).flatten := by
  simp only [allBulletCitations, List.mem_flatten, List.mem_map]
  constructor
  · rintro ⟨blk, ⟨n, hn, rfl⟩, hc⟩
    rw [mem_pyDedup] at hc
    obtain ⟨hc1, -⟩ := hc
    simp only [chapterCitations, List.mem_flatten, List.mem_map] at hc1
    obtain ⟨l, ⟨s, hs, rfl⟩, hcl⟩ := hc1
    exact ⟨s.citations_used, ⟨s, (List.mem_filter.mp hs).1, rfl⟩, hcl⟩
  · rintro ⟨l, ⟨s, hs, rfl⟩, hc⟩
    have hs_ne : s.citations_used ≠ [] := by
      intro h0; rw [h0] at hc; cases hc
    refine ⟨pyDedup [] (chapterCitations sections s.spec.chapter_number),
      ⟨s.spec.chapter_number, ?_, rfl⟩, ?_⟩
    · simp only [citationKeys, mem_sortNat, mem_pyDedup]
      refine ⟨?_, by simp⟩
      simp only [List.mem_map]
      exact ⟨s, List.mem_filter.mpr ⟨hs, by simpa using hs_ne⟩, rfl⟩
    · rw [mem_pyDedup]
      refine ⟨?_, by simp⟩
      simp only [chapterCitations, List.mem_flatten, List.mem_map]
      refine ⟨s.citations_used, ⟨s, List.mem_filter.mpr ⟨hs, ?_⟩, rfl⟩, hc⟩
      simpa using hs_ne

theorem mapM_header_ok (struct : ReportStructure) (sections : List GeneratedSection)
    (l : List Nat)
    (h : ∀ n ∈ l, ∃ s, chapterHeader struct n = .ok s) :
    ∃ out, l.mapM (fun n => do
      let hdr ← chapterHeader struct n
      let bullets := (pyDedup [] (chapterCitations sections n)).map
        (fun cit => "- [" ++ cit ++ "]\n")
      return hdr ++ String.join bullets) = Except.ok out := by
  induction l with
  | nil => exact ⟨[], rfl⟩
  | cons a t ih =>
    obtain ⟨s, hs⟩ := h a (List.mem_cons_self _ _)
    obtain ⟨out, hout⟩ := ih (fun n hn => h n (List.mem_cons_of_mem _ hn))
    exact ⟨_, by rw [List.mapM_cons, hs, hout]; rfl⟩

/-- C7: whenever every cited section's chapter number is within range, the
"# Citations" section produced by `organize_citations_by_chapter` is built,
and the citation strings emitted as bullet items (`allBulletCitations`) are
exactly — as a set — the deduplicated union of `citations_used` over all
sections; when that union is empty the section is exactly
"No citations available for this report.". -/
theorem c7_citations_section_set (struct : ReportStructure) (sections : List GeneratedSection)
    (hch : ∀ s ∈ sections, s.citations_used ≠ [] →
      s.spec.chapter_number ≤ struct.chapters.length + 1) :
    (∃ out, organize_citations_by_chapter struct sections = .ok out ∧
      ((sections.map (fun s => s.citations_used)).flatten = [] →
        out = "\n# Citations\n\nNo citations available for this report.\n")) ∧
    (∀ c, c ∈ allBulletCitations sections ↔
      c ∈ pyDedup [] ((sections.map (fun s => s.citations_used)).flatten)) := by
  constructor
  · by_cases hE : pyDedup [] ((sections.map (fun s => s.citations_used)).flatten) = []
    · refine ⟨_, ?_, fun _ => rfl⟩
      simp only [organize_citations_by_chapter]
      rw [if_pos hE]
    · have hkeys : ∀ n ∈ citationKeys sections, ∃ s, chapterHeader struct n = .ok s := by
        intro n hn
        rw [citationKeys, mem_sortNat, mem_pyDedup] at hn
        obtain ⟨hn1, -⟩ := hn
        simp only [List.mem_map] at hn1
        obtain ⟨s, hsf, rfl⟩ := hn1
        have hsm := List.mem_filter.mp hsf
        have hne : s.citations_used ≠ [] := by simpa using hsm.2
        have hle := hch s hsm.1 hne
        by_cases h0 : s.spec.chapter_number = 0
        · exact ⟨"\n## Executive Summary\n", by simp [chapterHeader, h0]⟩
        · by_cases hL : s.spec.chapter_number = struct.chapters.length + 1
          · exact ⟨"\n## Conclusion\n", by simp [chapterHeader, h0, hL]⟩
          · have hlt : s.spec.chapter_number - 1 < struct.chapters.length := by omega
            refine ⟨"\n## Chapter " ++ toString s.spec.chapter_number ++ ": "
              ++ (struct.chapters.get ⟨s.spec.chapter_number - 1, hlt⟩).title ++ "\n", ?_⟩
            simp only [chapterHeader]
            rw [if_neg h0, if_neg hL, List.get?_eq_get hlt]
      obtain ⟨blocks, hblocks⟩ := mapM_header_ok struct sections _ hkeys
      refine ⟨"\n# Citations\n" ++ String.join blocks ++ "\n", ?_, ?_⟩
      · simp only [organize_citations_by_chapter]
        rw [if_neg hE, hblocks]
        rfl
      · intro hflat
        exact absurd (by rw [hflat]; rfl) hE
  · intro c
    rw [mem_allBulletCitations, mem_pyDedup]
    simp

/-- Witness for C7 at a three-section fixture with duplicated citations. -/
theorem c7_citations_section_set_witness :
    ∃ out, organize_citations_by_chapter structFix sectionsFixC7 = .ok out ∧
      ((sectionsFixC7.map (fun s => s.citations_used)).flatten = [] →
        out = "\n# Citations\n\nNo citations available for this report.\n") :=
  (c7_citations_section_set structFix sectionsFixC7 (by decide)).1

/-- C10: when the packing loop emits no chunk and the trailing chunk's token
total is below `min_tokens`, `chunk_document` returns the empty list — the
document is silently dropped. -/
theorem c10_short_document_dropped (doc : Doc) (max_tokens overlap min_tokens : Nat)
    (h1 : split_sentences (clean doc.text) ≠ [])
    (h2 : (chunkLoop max_tokens overlap doc.id doc.url
      (split_sentences (clean doc.text))).chunks = [])
    (h3 : (chunkLoop max_tokens overlap doc.id doc.url
      (split_sentences (clean doc.text))).current_tokens < min_tokens) :
    chunk_document doc max_tokens overlap min_tokens true = [] := by
  simp only [chunk_document, if_true]
  rw [if_neg h1]
  rw [if_neg (fun hc => absurd hc.2 (Nat.not_le.mpr h3))]
  rw [if_neg (fun hc => absurd h2 hc.2)]
  exact h2

/-- Witness for C10: a two-sentence document with the default parameters
(`max_tokens = 500`, `overlap = 50`, `min_tokens = 500`) yields zero
chunks. -/
theorem c10_short_document_dropped_witness : chunk_document docFix 500 50 500 true = [] :=
  c10_short_document_dropped docFix 500 50 500 (by decide) (by decide) (by decide)

/-- Counterexample for C3 as stated: with `max_tokens = 1`, both chunks
produced for "Aaaaaaaa. Bb." carry `token_count = 2 > 1` (an oversized
sentence is packed alone, and the final merge recomputes an oversized
estimate). -/
theorem c3_token_bound_counterexample :
    (chunk_document ⟨"Aaaaaaaa. Bb.", none, none, none⟩ 1 0 0 true).map Chunk.token_count
      = [2, 2] ∧ ¬ (2 ≤ 1) := ⟨by decide, by decide⟩

theorem overlapScan_otoks_le (ov : Nat) (l : List String) (init lastSt : Nat)
    (h : init ≤ ov) : (overlapScan ov l init lastSt).2.1 ≤ ov := by
  induction l generalizing init lastSt with
  | nil => simpa [overlapScan]
  | cons s rest ih =>
    simp only [overlapScan]
    by_cases hc : init + estimate_tokens s ≤ ov
    · rw [if_pos hc]
      simpa using ih _ _ hc
    · rw [if_neg hc]
      simpa

theorem overlapScan_lastSt (ov : Nat) (l : List String) (init lastSt : Nat) :
    (overlapScan ov l init lastSt).2.2 = lastSt ∨
      ∃ s ∈ l, (overlapScan ov l init lastSt).2.2 = estimate_tokens s := by
  induction l generalizing init lastSt with
  | nil => left; simp [overlapScan]
  | cons s rest ih =>
    simp only [overlapScan]
    by_cases hc : init + estimate_tokens s ≤ ov
    · rw [if_pos hc]
      rcases ih (init + estimate_tokens s) (estimate_tokens s) with h | ⟨x, hx, h⟩
      · right
        exact ⟨s, List.mem_cons_self _ _, by simpa using h⟩
      · right
        exact ⟨x, List.mem_cons_of_mem _ hx, by simpa using h⟩
    · rw [if_neg hc]
      right
      exact ⟨s, List.mem_cons_self _ _, rfl⟩

theorem overlapScan_buffer_subset (ov : Nat) (l : List String) (init lastSt : Nat) :
    ∀ x ∈ (overlapScan ov l init lastSt).1, x ∈ l := by
  induction l generalizing init lastSt with
  | nil => simp [overlapScan]
  | cons s rest ih =>
    simp only [overlapScan]
    by_cases hc : init + estimate_tokens s ≤ ov
    · rw [if_pos hc]
      intro x hx
      simp only [List.mem_append, List.mem_singleton] at hx
      rcases hx with hx | rfl
      · exact List.mem_cons_of_mem _ (ih _ _ x (by simpa using hx))
      · exact List.mem_cons_self _ _
    · rw [if_neg hc]
      intro x hx
      cases hx

theorem chunkStep_inv (maxT ov : Nat) (di du : Option String) (st : ChunkState)
    (sen : String) (_hov : ov ≤ maxT) (hsen : estimate_tokens sen + ov ≤ maxT)
    (hinv : ChunkInv maxT ov st) :
    ChunkInv maxT ov (chunkStep maxT ov di du st sen) := by
  obtain ⟨h1, h2, h3, h4⟩ := hinv
  simp only [chunkStep]
  by_cases hc : st.current_tokens + estimate_tokens sen > maxT ∧ st.current_chunk ≠ []
  · rw [if_pos hc]
    dsimp only
    have hbuf := overlapScan_buffer_subset ov st.current_chunk.reverse 0 (estimate_tokens sen)
    have hotoks := overlapScan_otoks_le ov st.current_chunk.reverse 0 (estimate_tokens sen)
      (Nat.zero_le _)
    have hlast := overlapScan_lastSt ov st.current_chunk.reverse 0 (estimate_tokens sen)
    refine ⟨?_, ?_, ?_, ?_⟩
    · intro c hcram
      simp only [List.mem_append, List.mem_singleton] at hcram
      rcases hcram with hcm | rfl
      · exact h1 c hcm
      · exact h2
    · have hl : (overlapScan ov st.current_chunk.reverse 0 (estimate_tokens sen)).2.2 + ov
          ≤ maxT := by
        rcases hlast with he | ⟨x, hx, he⟩
        · rw [he]; omega
        · rw [he]
          exact h4 x (List.mem_reverse.mp hx)
      show (overlapScan ov st.current_chunk.reverse 0 (estimate_tokens sen)).2.1 +
          (overlapScan ov st.current_chunk.reverse 0 (estimate_tokens sen)).2.2 ≤ maxT
      omega
    · intro hemp
      simp at hemp
    · intro x hx
      simp only [List.mem_append, List.mem_singleton] at hx
      rcases hx with hx | rfl
      · exact h4 x (List.mem_reverse.mp (hbuf x hx))
      · exact hsen
  · rw [if_neg hc]
    dsimp only
    refine ⟨h1, ?_, ?_, ?_⟩
    · show st.current_tokens + estimate_tokens sen ≤ maxT
      rcases Decidable.not_and_iff_or_not.mp hc with hle | hemp
      · have := Nat.not_lt.mp (fun hh => hle hh)
        omega
      · have hcc : st.current_chunk = [] := by
          by_contra hne
          exact hemp hne
        have h0 := h3 hcc
        omega
    · intro hemp
      simp at hemp
    · intro x hx
      simp only [List.mem_append, List.mem_singleton] at hx
      rcases hx with hx | rfl
      · exact h4 x hx
      · exact hsen

theorem chunkLoop_inv_aux (maxT ov : Nat) (di du : Option String) (l : List String)
    (hov : ov ≤ maxT) (hs : ∀ s ∈ l, estimate_tokens s + ov ≤ maxT) :
    ∀ st, ChunkInv maxT ov st →
      ChunkInv maxT ov (l.foldl (chunkStep maxT ov di du) st) := by
  induction l with
  | nil => intro st h; simpa
  | cons s rest ih =>
    intro st h
    simp only [List.foldl_cons]
    exact ih (fun x hx => hs x (List.mem_cons_of_mem _ hx)) _
      (chunkStep_inv maxT ov di du st s hov (hs s (List.mem_cons_self _ _)) h)

/-- C3 (amended): provided `overlap ≤ max_tokens` and every sentence of the
cleaned text has `estimate_tokens s + overlap ≤ max_tokens`, every chunk
emitted by the packing loop satisfies `token_count ≤ max_tokens`, the final
running total is also bounded (so the ≥ `min_tokens` flush chunk is within
bound; only the trailing merge step may exceed it), and the overlap buffer
carried between consecutive chunks always holds at most `overlap` estimated
tokens. -/
theorem c3_chunk_token_bounds (doc : Doc) (max_tokens overlap : Nat)
    (hov : overlap ≤ max_tokens)
    (hs : ∀ s ∈ split_sentences (clean doc.text),
      estimate_tokens s + overlap ≤ max_tokens) :
    (∀ c ∈ (chunkLoop max_tokens overlap doc.id doc.url
        (split_sentences (clean doc.text))).chunks, c.token_count ≤ max_tokens) ∧
    (chunkLoop max_tokens overlap doc.id doc.url
      (split_sentences (clean doc.text))).current_tokens ≤ max_tokens ∧
    (∀ (l : List String) (init : Nat), (overlapScan overlap l 0 init).2.1 ≤ overlap) := by
  have h0 : ChunkInv max_tokens overlap ⟨[], [], 0, 0⟩ := by
    refine ⟨?_, Nat.zero_le _, fun _ => rfl, ?_⟩ <;> intro x hx <;> cases hx
  have hinv := chunkLoop_inv_aux max_tokens overlap doc.id doc.url
    (split_sentences (clean doc.text)) hov hs _ h0
  exact ⟨hinv.1, hinv.2.1, fun l init => overlapScan_otoks_le overlap l 0 init (Nat.zero_le _)⟩

/-- Witness for C3 at a short fixture document with the default
`max_tokens`/`overlap`. -/
theorem c3_chunk_token_bounds_witness :
    (chunkLoop 500 50 docFix.id docFix.url
      (split_sentences (clean docFix.text))).current_tokens ≤ 500 :=
  (c3_chunk_token_bounds docFix 500 50 (by decide) (by decide)).2.1

theorem sendUpdate_complete (st : PState) (d : Option String) (ii : Bool)
    (fr : Option String) (c : Option (List String)) (b : Bool) :
    ((sendUpdate st d ii fr c b).2).complete = b := rfl

theorem allIntermediate_pair {e1 e2 : Event} (h1 : e1.complete = false)
    (h2 : e2.complete = false) : allIntermediate [e1, e2] := by
  intro e he
  rcases List.mem_cons.mp he with rfl | he
  · exact h1
  · rcases List.mem_cons.mp he with rfl | he
    · exact h2
    · cases he

theorem plan_trace (env : Env) (st : PState) (query : String) (st' : PState)
    (tr : List Event) (h : generate_research_plan env st query = .ok (st', tr)) :
    allIntermediate tr := by
  simp only [generate_research_plan] at h
  cases hse : self_evolve env.llm (PLAN_PROMPT query)
      "You are a strategic research planner." NUM_VARIANTS EVOLUTION_STEPS with
  | error e =>
    rw [hse] at h
    simp [Except.bind] at h
  | ok v =>
    rw [hse] at h
    obtain ⟨pt, vs⟩ := v
    simp only [bind, Except.bind, pure, Except.pure, Except.ok.injEq, Prod.mk.injEq] at h
    obtain ⟨-, h2⟩ := h
    subst h2
    exact allIntermediate_pair rfl rfl

theorem draft_trace (env : Env) (st : PState) (query : String) :
    allIntermediate (generate_initial_draft env st query).2 := by
  simp only [generate_initial_draft]
  exact allIntermediate_pair rfl rfl

theorem gsq_trace (env : Env) (st : PState) (query : String) (i m : Nat) :
    allIntermediate (generate_search_query env st query i m).2.2 := by
  simp only [generate_search_query]
  by_cases h : i = 0
  · rw [if_pos h]
    exact allIntermediate_pair rfl rfl
  · rw [if_neg h]
    exact allIntermediate_pair rfl rfl

theorem retrieve_trace (env : Env) (st : PState) (q : String) :
    allIntermediate (retrieve_and_synthesize_documents env st q).2.2 := by
  simp only [retrieve_and_synthesize_documents]
  cases hg : retrieve_with_grounded_generation env q (groundedContextPrompt q) with
  | ok v =>
    obtain ⟨ans, cits⟩ := v
    intro e he
    rcases List.mem_cons.mp he with rfl | he
    · rfl
    · rcases List.mem_cons.mp he with rfl | he
      · rfl
      · rcases List.mem_cons.mp he with rfl | he
        · rfl
        · cases he
  | error e =>
    exact allIntermediate_pair rfl rfl

theorem revise_trace (env : Env) (st : PState) (q sq ans : String) (i : Nat) :
    allIntermediate (revise_draft_with_new_info env st q sq ans i).2 := by
  simp only [revise_draft_with_new_info]
  exact allIntermediate_pair rfl rfl

theorem iterLoop_trace (env : Env) (query : String) (m : Nat) :
    ∀ (remaining : Nat) (st : PState) (i : Nat),
      allIntermediate (iterLoop env query m st i remaining).2 := by
  intro remaining
  induction remaining with
  | zero =>
    intro st i
    intro e he
    cases he
  | succ r ih =>
    intro st i
    simp only [iterLoop]
    by_cases h : pyStrip (generate_search_query env st query i m).1 = ""
    · rw [if_pos h]
      rw [allIntermediate_append]
      exact ⟨gsq_trace env st query i m, ih _ _⟩
    · rw [if_neg h]
      rw [allIntermediate_append, allIntermediate_append, allIntermediate_append]
      exact ⟨⟨⟨gsq_trace env st query i m, retrieve_trace env _ _⟩, revise_trace env _ _ _ _ _⟩,
        ih _ _⟩

theorem final_report_trace (env : Env) (st : PState) (query : String) :
    endsComplete (generate_final_report env st query).2 := by
  simp only [generate_final_report]
  refine ⟨[(sendUpdate st (some "All research steps complete. Generating final report...")
    true none none false).2], _, rfl, rfl, ?_⟩
  intro e he
  rcases List.mem_cons.mp he with rfl | he
  · rfl
  · cases he

theorem endsComplete_append {t1 t2 : List Event} (h1 : allIntermediate t1)
    (h2 : endsComplete t2) : endsComplete (t1 ++ t2) := by
  obtain ⟨t0, e, rfl, he, h0⟩ := h2
  refine ⟨t1 ++ t0, e, by simp, he, ?_⟩
  rw [allIntermediate_append]
  exact ⟨h1, h0⟩

theorem structure_trace (env : Env) (st : PState) (query : String) (st' : PState)
    (tr : List Event) (h : generate_report_structure env st query = .ok (st', tr)) :
    allIntermediate tr := by
  simp only [generate_report_structure] at h
  by_cases he : st.enable_structured = false
  · rw [if_pos he] at h
    simp only [Except.ok.injEq, Prod.mk.injEq] at h
    obtain ⟨-, h2⟩ := h
    subst h2
    intro e hee
    cases hee
  · rw [if_neg he] at h
    cases hg : env.generate_chapter_outline query
        (sendUpdate st (some "Generating comprehensive report structure...")
          true none none false).1.plan
        (String.intercalate "\n"
          ((sendUpdate st (some "Generating comprehensive report structure...")
            true none none false).1.q_a_history.filterMap (fun hh =>
              hh.qa.map (fun p => "Q: " ++ p.1 ++ "\nA: " ++ p.2.take 200 ++ "...")))) with
    | error e =>
      rw [hg] at h
      simp [bind, Except.bind] at h
    | ok rs =>
      rw [hg] at h
      simp only [bind, Except.bind, pure, Except.pure, Except.ok.injEq, Prod.mk.injEq] at h
      obtain ⟨-, h2⟩ := h
      subst h2
      exact allIntermediate_pair rfl rfl

theorem except_bind_ok {α β : Type} {x : Except String α} {f : α → Except String β}
    {v : β} (h : x >>= f = .ok v) : ∃ a, x = .ok a ∧ f a = .ok v := by
  cases x with
  | ok a => exact ⟨a, rfl, h⟩
  | error e => simp [bind, Except.bind] at h

theorem allIntermediate_single {e : Event} (h : e.complete = false) :
    allIntermediate [e] := by
  intro x hx
  rcases List.mem_cons.mp hx with rfl | hx
  · exact h
  · cases hx

theorem genSectionLoop_trace (env : Env) (sp : SectionSpec) (rd progress : String)
    (ma : Nat) :
    ∀ (fuel : Nat) (st : PState) (attempt : Nat) (sec : GeneratedSection)
      (st' : PState) (tr : List Event),
      genSectionLoop env sp rd progress ma st attempt fuel = .ok (sec, st', tr) →
      allIntermediate tr := by
  intro fuel
  induction fuel with
  | zero =>
    intro st attempt sec st' tr h
    simp [genSectionLoop] at h
  | succ f ih =>
    intro st attempt sec st' tr h
    simp only [genSectionLoop] at h
    by_cases ha : attempt > ma
    · rw [if_pos ha] at h
      simp at h
    · rw [if_neg ha] at h
      by_cases h1 : attempt > 1 <;> [rw [if_pos h1] at h; rw [if_neg h1] at h] <;>
      · obtain ⟨sec0, hsec0, h⟩ := except_bind_ok h
        split at h
        · split at h
          · simp only [pure, Except.pure, Except.ok.injEq, Prod.mk.injEq] at h
            obtain ⟨-, -, h3⟩ := h
            subst h3
            first
              | exact allIntermediate_pair rfl rfl
              | exact allIntermediate_single rfl
          · simp only [pure, Except.pure, Except.ok.injEq, Prod.mk.injEq] at h
            obtain ⟨-, -, h3⟩ := h
            subst h3
            first
              | exact allIntermediate_single rfl
              | (intro e he; cases he)
        · obtain ⟨r0, hrec, heq⟩ := except_bind_ok h
          simp only [pure, Except.pure, Except.ok.injEq, Prod.mk.injEq] at heq
          obtain ⟨-, -, h3⟩ := heq
          subst h3
          rw [allIntermediate_append]
          refine ⟨?_, ih _ _ _ _ _ (by rw [← hrec])⟩
          first
            | exact allIntermediate_single rfl
            | (intro e he; cases he)

theorem sectionsLoop_trace (env : Env) (rd : String) (tm ma : Nat) :
    ∀ (specs : List SectionSpec) (st : PState) (cur : Nat) (st' : PState)
      (cur' : Nat) (tr : List Event),
      sectionsLoop env rd tm ma st cur specs = .ok (st', cur', tr) →
      allIntermediate tr := by
  intro specs
  induction specs with
  | nil =>
    intro st cur st' cur' tr h
    simp only [sectionsLoop, Except.ok.injEq, Prod.mk.injEq] at h
    obtain ⟨-, -, h3⟩ := h
    subst h3
    intro e he
    cases he
  | cons sp rest ih =>
    intro st cur st' cur' tr h
    simp only [sectionsLoop] at h
    obtain ⟨v1, hv1, h⟩ := except_bind_ok h
    obtain ⟨r0, hrec, heq⟩ := except_bind_ok h
    simp only [pure, Except.pure, Except.ok.injEq, Prod.mk.injEq] at heq
    obtain ⟨-, -, h3⟩ := heq
    subst h3
    rw [allIntermediate_append, allIntermediate_append]
    refine ⟨⟨genSectionLoop_trace env sp rd _ ma _ _ _ _ _ _ (by rw [← hv1]), ?_⟩,
      ih _ _ _ _ _ (by rw [← hrec])⟩
    exact allIntermediate_single rfl

theorem chaptersLoop_trace (env : Env) (rd : String) (tm ma : Nat) :
    ∀ (chs : List Chapter) (st : PState) (cur : Nat) (st' : PState)
      (cur' : Nat) (tr : List Event),
      chaptersLoop env rd tm ma st cur chs = .ok (st', cur', tr) →
      allIntermediate tr := by
  intro chs
  induction chs with
  | nil =>
    intro st cur st' cur' tr h
    simp only [chaptersLoop, Except.ok.injEq, Prod.mk.injEq] at h
    obtain ⟨-, -, h3⟩ := h
    subst h3
    intro e he
    cases he
  | cons ch rest ih =>
    intro st cur st' cur' tr h
    simp only [chaptersLoop] at h
    obtain ⟨v1, hv1, h⟩ := except_bind_ok h
    obtain ⟨r0, hrec, heq⟩ := except_bind_ok h
    simp only [pure, Except.pure, Except.ok.injEq, Prod.mk.injEq] at heq
    obtain ⟨-, -, h3⟩ := heq
    subst h3
    intro e he
    rcases List.mem_cons.mp he with rfl | he
    · rfl
    · rcases List.mem_append.mp he with he | he
      · exact sectionsLoop_trace env rd tm ma _ _ _ _ _ _ (by rw [← hv1]) e he
      · exact ih _ _ _ _ _ (by rw [← hrec]) e he

theorem structured_report_trace (env : Env) (st : PState) (query : String)
    (st' : PState) (tr : List Event)
    (h : generate_structured_report env st query = .ok (st', tr)) :
    endsComplete tr := by
  unfold generate_structured_report at h
  by_cases he : st.enable_structured = true
  · cases hrs : st.report_structure with
    | none =>
      rw [he, hrs] at h
      simp only [Except.ok.injEq] at h
      have h2 : tr = (generate_final_report env st query).2 := by
        rw [h]
      rw [h2]
      exact final_report_trace env st query
    | some rs =>
      rw [he, hrs] at h
      obtain ⟨es, hes, h⟩ := except_bind_ok h
      obtain ⟨cl, hcl, h⟩ := except_bind_ok h
      obtain ⟨concl, hconcl, h⟩ := except_bind_ok h
      obtain ⟨fr, hfr, h⟩ := except_bind_ok h
      simp only [pure, Except.pure, Except.ok.injEq, Prod.mk.injEq] at h
      obtain ⟨-, h3⟩ := h
      subst h3
      refine endsComplete_append ?_ ?_
      · rw [allIntermediate_append]
        exact ⟨allIntermediate_pair rfl rfl,
          chaptersLoop_trace env _ _ _ _ _ _ _ _ _ (by rw [← hcl])⟩
      · refine ⟨[_, _], _, rfl, rfl, allIntermediate_pair rfl rfl⟩
  · have he' : st.enable_structured = false := by
      cases hh : st.enable_structured
      · rfl
      · exact absurd hh he
    rw [he'] at h
    simp only [Except.ok.injEq] at h
    have h2 : tr = (generate_final_report env st query).2 := by
      rw [h]
    rw [h2]
    exact final_report_trace env st query

/-- C4: every normally-terminating pipeline run delivers a trace that ends
with its unique `complete = true` event: every earlier event has
`complete = false`. -/
theorem c4_run_completes_once (env : Env) (st : PState) (query : String) (max_iterations : Nat)
    (st' : PState) (tr : List Event)
    (h : run env st query max_iterations = .ok (st', tr)) : endsComplete tr := by
  unfold run at h
  obtain ⟨p1, h1, h⟩ := except_bind_ok h
  obtain ⟨st1, t1⟩ := p1
  dsimp only at h
  by_cases he : (perform_iterative_search_and_synthesis env
      (generate_initial_draft env st1 query).1 query max_iterations).1.enable_structured = true
  · rw [if_pos he] at h
    obtain ⟨p4, h4, h⟩ := except_bind_ok h
    obtain ⟨st4, t4⟩ := p4
    dsimp only at h
    obtain ⟨p5, h5, h⟩ := except_bind_ok h
    obtain ⟨st5, t5⟩ := p5
    simp only [pure, Except.pure, Except.ok.injEq, Prod.mk.injEq] at h
    obtain ⟨-, h3⟩ := h
    subst h3
    refine endsComplete_append ?_ (structured_report_trace _ _ _ _ _ h5)
    rw [allIntermediate_append, allIntermediate_append, allIntermediate_append]
    exact ⟨⟨⟨plan_trace _ _ _ _ _ h1, draft_trace _ _ _⟩,
      iterLoop_trace _ _ _ _ _ _⟩, structure_trace _ _ _ _ _ h4⟩
  · rw [if_neg he] at h
    simp only [pure, Except.pure, Except.ok.injEq, Prod.mk.injEq] at h
    obtain ⟨-, h3⟩ := h
    subst h3
    refine endsComplete_append ?_ (final_report_trace _ _ _)
    rw [allIntermediate_append, allIntermediate_append]
    exact ⟨⟨plan_trace _ _ _ _ _ h1, draft_trace _ _ _⟩, iterLoop_trace _ _ _ _ _ _⟩

set_option maxRecDepth 8000 in
/-- Witness for C4: a concrete legacy-path run (structured generation
disabled, zero search iterations) terminates normally and its trace ends
with the unique completion event. -/
theorem c4_run_completes_once_witness :
    ∃ st' tr, run envRunFix (initialPState false) "q" 0 = .ok (st', tr) ∧ endsComplete tr := by
  have hok : exceptIsOk (run envRunFix (initialPState false) "q" 0) = true := by decide
  rcases hres : run envRunFix (initialPState false) "q" 0 with e | p
  · rw [hres] at hok
    simp [exceptIsOk] at hok
  · obtain ⟨st2, tr2⟩ := p
    exact ⟨st2, tr2, rfl, c4_run_completes_once envRunFix (initialPState false) "q" 0 st2 tr2 hres⟩
